import Mathlib

/-!
Shallow embedding of the ST-Link probe driver core of `probe-rs`
(`src/probe-rs/src/probe/stlink/mod.rs`), of the session reattach logic
(`src/probe-rs/src/session.rs`) and of the DAP-server polling loop
(`src/probe-rs-tools/.../dap_server/server/session_data.rs`).

Stateful Rust code is embedded as explicit state passing over a
`StLinkState` record (the probe driver) and a `StlinkArmDebugState`
record (the ARM debug adapter wrapping it).  Fallible code returns
`Except`.  The USB transport is modelled as a deterministic oracle
`Device` mapping a command byte sequence to a response byte sequence;
every command handed to the transport is recorded in a trace inside the
state, so that theorems can speak about the USB traffic an operation
produced.
-/

namespace ProbeRsStlink

/-! ## Status codes and errors -/

/-- Probe status byte, decoded.  Mirrors `constants::Status` (the
`constants` module is referenced but not part of the given sources; the
spec fixes `JtagOk = 0x80` and says `SwdDpWait` / `SwdApWait` are the
only retryable statuses). -/
inductive Status
  | JtagOk
  | SwdDpWait
  | SwdApWait
  | JtagFreqNotSupported
  | UnknownStatus (code : Nat)
  deriving DecidableEq, Repr

/-- Modelled from the spec: numeric status byte values live in
`constants.rs`, which is not among the given sources.  `0x80` is fixed
by the spec; the wait statuses get distinct nominal codes. -/
def statusFromByte (b : Nat) : Status :=
  if b = 0x80 then .JtagOk
  else if b = 0x14 then .SwdDpWait
  else if b = 0x10 then .SwdApWait
  else .UnknownStatus b

/-- Mirrors `StlinkError` from `stlink/mod.rs`. -/
inductive StlinkError
  | VoltageDivisionByZero
  | UnknownMode
  | BanksNotAllowedOnDPRegister
  | NotEnoughBytesWritten (is should : Nat)
  | EndpointNotFound
  | CommandFailed (status : Status)
  | JTAGNotSupportedOnProbe
  | ManchesterSwoNotSupported
  | MultidropNotSupported
  | UnalignedAddress
  | ProbeFirmwareOutdated (minVersion : Nat)
  | Usb (code : Nat)
  deriving DecidableEq, Repr

/-- Names of probe commands used in `DebugProbeError::CommandNotSupportedByProbe`
(modelled as an enumeration instead of strings). -/
inductive CmdName
  | swj_pins
  | swj_sequence
  | open_ap
  | close_ap
  | set_communication_frequency
  deriving DecidableEq, Repr

/-- Mirrors the part of `DebugProbeError` exercised by the ST-Link driver. -/
inductive DebugProbeError
  | Stlink (e : StlinkError)
  | CommandNotSupportedByProbe (commandName : CmdName)
  deriving DecidableEq, Repr

/-! ## The wait-retry policy (`retry_on_wait`, mod.rs lines 1848-1878) -/

/-- Mirrors `is_wait_error` (mod.rs lines 1848-1853). -/
def is_wait_error : StlinkError → Bool
  | .CommandFailed .SwdDpWait => true
  | .CommandFailed .SwdApWait => true
  | _ => false

/-- One step of the `for attempt in 0..13` loop of `retry_on_wait`
(mod.rs lines 1855-1878).  The `FnMut` thunk is modelled as a function
of the attempt index.  Besides the result we record how many times the
thunk was invoked and the sleep durations (µs) of the backoff, so that
theorems can speak about the attempt count and the backoff schedule.
When the loop budget is exhausted the last stored error is returned
(`last_err.unwrap()`; in reachable states it is always present, the
`getD` default is never used). -/
def retry_go {R : Type} (f : Nat → Except StlinkError R) :
    Nat → Nat → Option StlinkError → Nat → List Nat →
    Except StlinkError R × Nat × List Nat
  | 0, _, lastErr, attempts, sleeps =>
    (.error (lastErr.getD StlinkError.UnknownMode), attempts, sleeps)
  | remaining + 1, attempt, lastErr, attempts, sleeps =>
    match f attempt with
    | .ok v => (.ok v, attempts + 1, sleeps)
    | .error e =>
      if is_wait_error e then
        retry_go f remaining (attempt + 1) (some e) (attempts + 1)
          (sleeps ++ [100 <<< attempt])
      else
        (.error e, attempts + 1, sleeps)

/-- Mirrors `retry_on_wait` (mod.rs lines 1855-1878): 13 attempts,
starting at attempt 0 with no stored error. -/
def retry_on_wait {R : Type} (f : Nat → Except StlinkError R) :
    Except StlinkError R × Nat × List Nat :=
  retry_go f 13 0 none 0 []

/-- A thunk that fails with a wait error on every attempt drives the
retry loop to exhaustion: for any remaining budget `r + 1` the loop
makes `r + 1` more attempts, sleeps `100 <<< a` µs after each of them,
and surfaces the error of the last attempt. -/
theorem retry_go_all_wait {R : Type} (f : Nat → Except StlinkError R)
    (e : Nat → StlinkError)
    (hf : ∀ n, f n = .error (e n)) (hw : ∀ n, is_wait_error (e n) = true) :
    ∀ (r attempt attempts : Nat) (lastErr : Option StlinkError)
      (sleeps : List Nat),
      retry_go f (r + 1) attempt lastErr attempts sleeps =
        (.error (e (attempt + r)), attempts + (r + 1),
          sleeps ++ (List.range' attempt (r + 1)).map fun a => 100 <<< a) := by
  intro r
  induction r with
  | zero =>
    intro attempt attempts lastErr sleeps
    simp [retry_go, hf, hw, List.range']
  | succ r ih =>
    intro attempt attempts lastErr sleeps
    rw [show r + 1 + 1 = (r + 1) + 1 from rfl, retry_go, hf attempt]
    simp only [hw attempt, if_true]
    rw [ih (attempt + 1) (attempts + 1) (some (e attempt))
      (sleeps ++ [100 <<< attempt])]
    have h1 : attempt + 1 + r = attempt + (r + 1) := by omega
    have h2 : attempts + 1 + (r + 1) = attempts + (r + 1 + 1) := by omega
    rw [h1, h2]
    simp [List.range', List.append_assoc]

/-- C1: `retry_on_wait` retries a thunk on `CommandFailed(SwdDpWait)` /
`CommandFailed(SwdApWait)`, sleeping `100 << attempt` µs between
attempts, for at most 13 attempts; a thunk that always returns a wait
error causes exactly 13 attempts and the last wait error is surfaced;
a non-wait error is returned immediately after one attempt; a success
is returned immediately after one attempt. -/
theorem claim_C1 :
    (∀ (R : Type) (f : Nat → Except StlinkError R) (e : Nat → StlinkError),
        (∀ n, f n = .error (e n)) → (∀ n, is_wait_error (e n) = true) →
        retry_on_wait f =
          (.error (e 12), 13, (List.range 13).map fun a => 100 <<< a))
    ∧ (∀ (R : Type) (f : Nat → Except StlinkError R) (v : R),
        f 0 = .ok v → retry_on_wait f = (.ok v, 1, []))
    ∧ (∀ (R : Type) (f : Nat → Except StlinkError R) (err : StlinkError),
        f 0 = .error err → is_wait_error err = false →
        retry_on_wait f = (.error err, 1, [])) := by
  refine ⟨?_, ?_, ?_⟩
  · intro R f e hf hw
    have h := retry_go_all_wait f e hf hw 12 0 0 none []
    rw [retry_on_wait, show (13 : Nat) = 12 + 1 from rfl, h]
    simp [List.range_eq_range']
  · intro R f v hv
    rw [retry_on_wait, show (13 : Nat) = 12 + 1 from rfl, retry_go, hv]
  · intro R f err he hnw
    rw [retry_on_wait, show (13 : Nat) = 12 + 1 from rfl, retry_go, he]
    simp [hnw]

/-- Witness for C1 at concrete thunks. -/
theorem claim_C1_witness :
    retry_on_wait (fun _ =>
        (.error (.CommandFailed .SwdDpWait) : Except StlinkError Nat)) =
      (.error (.CommandFailed .SwdDpWait), 13,
        (List.range 13).map fun a => 100 <<< a)
    ∧ retry_on_wait (fun _ => (.ok 7 : Except StlinkError Nat)) = (.ok 7, 1, [])
    ∧ retry_on_wait (fun _ =>
        (.error .UnalignedAddress : Except StlinkError Nat)) =
      (.error .UnalignedAddress, 1, []) :=
  ⟨claim_C1.1 Nat _ (fun _ => .CommandFailed .SwdDpWait)
      (fun _ => rfl) (fun _ => rfl),
   claim_C1.2.1 Nat _ 7 rfl,
   claim_C1.2.2 Nat _ .UnalignedAddress rfl rfl⟩

/-! ## Command opcodes and driver constants

The numeric opcode values live in `stlink/constants.rs`, which is not
among the given sources; the values below are the ST-Link protocol
values (only their distinctness matters for the theorems). -/

def GET_VERSION : Nat := 0xF1
def JTAG_COMMAND : Nat := 0xF2
def DFU_COMMAND : Nat := 0xF3
def SWIM_COMMAND : Nat := 0xF4
def GET_CURRENT_MODE : Nat := 0xF5
def GET_TARGET_VOLTAGE : Nat := 0xF7
def GET_VERSION_EXT : Nat := 0xFB
def JTAG_EXIT : Nat := 0x21
def DFU_EXIT : Nat := 0x07
def SWIM_EXIT : Nat := 0x01
def JTAG_READMEM_32BIT : Nat := 0x07
def JTAG_WRITEMEM_32BIT : Nat := 0x08
def JTAG_READMEM_8BIT : Nat := 0x0C
def JTAG_WRITEMEM_8BIT : Nat := 0x0D
def JTAG_GETLASTRWSTATUS2 : Nat := 0x3E
def JTAG_READ_DAP_REG : Nat := 0x45
def JTAG_WRITE_DAP_REG : Nat := 0x46
def JTAG_READMEM_16BIT : Nat := 0x47
def JTAG_WRITEMEM_16BIT : Nat := 0x48
def SWO_START_TRACE_RECEPTION : Nat := 0x40
def SWO_STOP_TRACE_RECEPTION : Nat := 0x41
def SWO_GET_TRACE_NEW_RECORD_NB : Nat := 0x42
def JTAG_INIT_AP : Nat := 0x4B
def JTAG_CLOSE_AP_DBG : Nat := 0x4C

/-- Mirrors `STLINK_MAX_READ_LEN` (mod.rs line 41). -/
def STLINK_MAX_READ_LEN : Nat := 6144

/-- Mirrors `STLINK_MAX_WRITE_LEN` (mod.rs line 46). -/
def STLINK_MAX_WRITE_LEN : Nat := 0xFFFC

/-- Mirrors `DP_PORT` (mod.rs line 48). -/
def DP_PORT : Nat := 0xFFFF

/-- Mirrors `StLink::MIN_JTAG_VERSION`. -/
def MIN_JTAG_VERSION : Nat := 26

/-- Mirrors `StLink::MIN_JTAG_VERSION_V3`. -/
def MIN_JTAG_VERSION_V3 : Nat := 3

/-- Mirrors `StLink::MIN_JTAG_VERSION_MULTI_AP`. -/
def MIN_JTAG_VERSION_MULTI_AP : Nat := 28

/-- Mirrors `StLink::MIN_JTAG_VERSION_DP_BANK_SEL`. -/
def MIN_JTAG_VERSION_DP_BANK_SEL : Nat := 32

/-! ## Driver state and the state-passing embedding -/

/-- Mirrors `WireProtocol`. -/
inductive WireProtocol
  | Swd
  | Jtag
  deriving DecidableEq, Repr

/-- Mirrors the `StLink` struct (mod.rs lines 89-101), minus the USB
device handle (which becomes the `Device` oracle parameter of every
operation) and the display name.  The extra `trace` field records every
command handed to the transport, as our instrumentation of the USB
traffic: one entry per `StLinkUsb::write` call, holding the command
bytes and the write payload bytes. -/
structure StLinkState where
  hw_version : Nat
  jtag_version : Nat
  protocol : WireProtocol
  swd_speed_khz : Nat
  jtag_speed_khz : Nat
  swo_enabled : Bool
  opened_aps : List Nat
  trace : List (List Nat × List Nat)
  deriving DecidableEq, Repr

/-- The USB transport oracle: maps the command bytes and the write
payload to the response bytes (or a transport-level error).
Deterministic: a command always gets the same answer. -/
def Device : Type := List Nat → List Nat → Except StlinkError (List Nat)

/-- State-and-error monad of the driver: explicit state passing of
`StLinkState`, failing with `DebugProbeError`.  State changes made
before a failure (in particular trace entries of already-sent commands)
are kept, as in the Rust `?` early return. -/
def StM (α : Type) : Type := StLinkState → Except DebugProbeError α × StLinkState

instance : Monad StM where
  pure a := fun s => (.ok a, s)
  bind m f := fun s =>
    match m s with
    | (.ok a, s1) => f a s1
    | (.error e, s1) => (.error e, s1)

def stGet : StM StLinkState := fun s => (.ok s, s)

def stThrow {α : Type} (e : DebugProbeError) : StM α := fun s => (.error e, s)

def stModify (f : StLinkState → StLinkState) : StM Unit := fun s => (.ok (), f s)

@[simp] theorem stBind_eval {α β : Type} (m : StM α) (f : α → StM β)
    (s : StLinkState) :
    (m >>= f) s = match m s with
      | (.ok a, s1) => f a s1
      | (.error e, s1) => (.error e, s1) := rfl

@[simp] theorem stPure_eval {α : Type} (a : α) (s : StLinkState) :
    (pure a : StM α) s = (.ok a, s) := rfl

@[simp] theorem stGet_eval (s : StLinkState) : stGet s = (.ok s, s) := rfl

@[simp] theorem stThrow_eval {α : Type} (e : DebugProbeError) (s : StLinkState) :
    (stThrow e : StM α) s = (.error e, s) := rfl

@[simp] theorem stModify_eval (f : StLinkState → StLinkState) (s : StLinkState) :
    stModify f s = (.ok (), f s) := rfl

/-- Shorthand for the trace extension a transport call causes. -/
def addTrace (s : StLinkState) (cmd writeData : List Nat) : StLinkState :=
  { s with trace := s.trace ++ [(cmd, writeData)] }

/-- Mirrors `StLinkUsb::write`: the command frame (and payload) goes to
the device, and the caller's receive buffer of length `readLen` is
filled from the response (zero-padded, truncated to the buffer size).
The attempted command is recorded in the trace. -/
def device_write (dev : Device) (cmd writeData : List Nat) (readLen : Nat) :
    StM (List Nat) := fun s =>
  match dev cmd writeData with
  | .ok resp => (.ok ((resp ++ List.replicate readLen 0).take readLen),
      addTrace s cmd writeData)
  | .error e => (.error (.Stlink e), addTrace s cmd writeData)

/-- First byte of a receive buffer (`read_data[0]`; the buffers the
driver passes here are never empty, the 0 default is never used). -/
def headByte : List Nat → Nat
  | [] => 0
  | b :: _ => b

/-- Mirrors `send_jtag_command` (mod.rs lines 726-741): send, then
decode the first response byte as a `Status`; non-`JtagOk` statuses
become `CommandFailed`. -/
def send_jtag_command (dev : Device) (cmd writeData : List Nat)
    (readLen : Nat) : StM (List Nat) := do
  let readData ← device_write dev cmd writeData readLen
  match statusFromByte (headByte readData) with
  | .JtagOk => pure readData
  | st => stThrow (.Stlink (.CommandFailed st))

/-- Mirrors `get_last_rw_status` (mod.rs lines 801-812). -/
def get_last_rw_status (dev : Device) : StM Unit := do
  let _ ← send_jtag_command dev [JTAG_COMMAND, JTAG_GETLASTRWSTATUS2] [] 12
  pure ()

/-- Wait predicate lifted to `DebugProbeError` (the driver wraps
`retry_on_wait` around closures returning `StlinkError` and then
converts with `?`; wait errors are exactly the embedded `StlinkError`
wait errors). -/
def is_wait_dpe : DebugProbeError → Bool
  | .Stlink e => is_wait_error e
  | _ => false

/-- The `retry_on_wait` loop over a stateful probe action: on a wait
error the action is re-run from the state it left behind (its failed
command stays in the trace, as the bytes did go out on the wire). -/
def retry_go_m {α : Type} (act : StM α) : Nat → Option DebugProbeError → StM α
  | 0, lastErr => stThrow (lastErr.getD (.Stlink (.CommandFailed .SwdDpWait)))
  | r + 1, lastErr => fun s =>
    match act s with
    | (.ok v, s1) => (.ok v, s1)
    | (.error e, s1) =>
      if is_wait_dpe e then retry_go_m act r (some e) s1
      else (.error e, s1)

/-- Mirrors `retry_on_wait` as used around stateful probe commands:
13 attempts. -/
def retry_on_wait_m {α : Type} (act : StM α) : StM α :=
  retry_go_m act 13 none

/-- An action that succeeds right away needs no retry. -/
theorem retry_on_wait_m_ok {α : Type} (act : StM α) (s s1 : StLinkState)
    (v : α) (h : act s = (.ok v, s1)) : retry_on_wait_m act s = (.ok v, s1) := by
  rw [retry_on_wait_m, show (13 : Nat) = 12 + 1 from rfl, retry_go_m]
  simp [h]

/-- A non-wait error surfaces without retry. -/
theorem retry_on_wait_m_fail {α : Type} (act : StM α) (s s1 : StLinkState)
    (e : DebugProbeError) (h : act s = (.error e, s1))
    (hnw : is_wait_dpe e = false) :
    retry_on_wait_m act s = (.error e, s1) := by
  rw [retry_on_wait_m, show (13 : Nat) = 12 + 1 from rfl, retry_go_m]
  simp [h, hnw]

/-! ## AP arbitration (`select_ap`, `open_ap`) -/

/-- Mirrors `open_ap` (mod.rs lines 678-698). -/
def open_ap (dev : Device) (apsel : Nat) : StM Unit := do
  let s ← stGet
  if s.hw_version < 3 ∧ s.jtag_version < MIN_JTAG_VERSION_MULTI_AP then
    stThrow (.CommandNotSupportedByProbe .open_ap)
  else do
    let _ ← retry_on_wait_m
      (send_jtag_command dev [JTAG_COMMAND, JTAG_INIT_AP, apsel] [] 2)
    pure ()

/-- Mirrors `select_ap` (mod.rs lines 654-672). -/
def select_ap (dev : Device) (ap : Nat) : StM Unit := do
  let s ← stGet
  if s.hw_version < 3 ∧ s.jtag_version < MIN_JTAG_VERSION_MULTI_AP then
    if ap ≠ 0 then
      stThrow (.Stlink (.ProbeFirmwareOutdated MIN_JTAG_VERSION_MULTI_AP))
    else pure ()
  else if ap ∉ s.opened_aps then do
    open_ap dev ap
    stModify fun s1 => { s1 with opened_aps := s1.opened_aps ++ [ap] }
  else pure ()

/-- The head of a zero-padded, truncated receive buffer is the head of
the response whenever the buffer is non-empty. -/
theorem headByte_take_append (resp : List Nat) (rl : Nat) (h : 1 ≤ rl) :
    headByte ((resp ++ List.replicate rl 0).take rl) = headByte resp := by
  cases resp with
  | nil =>
    cases rl with
    | zero => omega
    | succ n => simp [List.replicate, headByte]
  | cons a t =>
    cases rl with
    | zero => omega
    | succ n => simp [headByte]

/-- Evaluation of `send_jtag_command` on a device answer whose status
byte is `JtagOk`. -/
theorem send_jtag_command_ok (dev : Device) (cmd writeData : List Nat)
    (readLen : Nat) (s : StLinkState) (resp : List Nat)
    (hd : dev cmd writeData = .ok resp) (hst : headByte resp = 0x80)
    (hrl : 1 ≤ readLen) :
    send_jtag_command dev cmd writeData readLen s =
      (.ok ((resp ++ List.replicate readLen 0).take readLen),
        addTrace s cmd writeData) := by
  rw [send_jtag_command]
  simp [device_write, hd, headByte_take_append _ _ hrl, hst, statusFromByte]

/-- Evaluation of `send_jtag_command` on a device answer whose status
byte is not `JtagOk`. -/
theorem send_jtag_command_fail (dev : Device) (cmd writeData : List Nat)
    (readLen : Nat) (s : StLinkState) (resp : List Nat)
    (hd : dev cmd writeData = .ok resp) (hrl : 1 ≤ readLen)
    (hst : statusFromByte (headByte resp) ≠ .JtagOk) :
    send_jtag_command dev cmd writeData readLen s =
      (.error (.Stlink (.CommandFailed (statusFromByte (headByte resp)))),
        addTrace s cmd writeData) := by
  rw [send_jtag_command]
  simp only [stBind_eval, device_write, hd, headByte_take_append _ _ hrl]
  cases hcase : statusFromByte (headByte resp) with
  | JtagOk => exact absurd hcase hst
  | _ => simp_all

/-- The canonical well-behaved device: accepts every command and
answers with a `JtagOk` status byte. -/
def okDev : Device := fun _ _ => .ok [0x80]

/-- C2: `select_ap(apsel)` with `apsel ≠ 0` on a probe without multi-AP
support (`hw_version < 3` and `jtag_version < 28`) fails with
`ProbeFirmwareOutdated(28)`; `select_ap(0)` on such a probe succeeds
without touching the transport; on a multi-AP-capable probe an AP not
in `opened_aps` is opened with exactly one `JTAG_INIT_AP` command and
appended to `opened_aps` on success, while an AP already in
`opened_aps` succeeds without any command. -/
theorem claim_C2 :
    (∀ (dev : Device) (s : StLinkState) (ap : Nat),
        s.hw_version < 3 → s.jtag_version < 28 → ap ≠ 0 →
        select_ap dev ap s =
          (.error (.Stlink (.ProbeFirmwareOutdated 28)), s))
    ∧ (∀ (dev : Device) (s : StLinkState),
        s.hw_version < 3 → s.jtag_version < 28 →
        select_ap dev 0 s = (.ok (), s))
    ∧ (∀ (dev : Device) (s : StLinkState) (ap : Nat) (resp : List Nat),
        ¬(s.hw_version < 3 ∧ s.jtag_version < 28) →
        ap ∉ s.opened_aps →
        dev [JTAG_COMMAND, JTAG_INIT_AP, ap] [] = .ok resp →
        headByte resp = 0x80 →
        select_ap dev ap s =
          (.ok (), { s with
            opened_aps := s.opened_aps ++ [ap],
            trace := s.trace ++ [([JTAG_COMMAND, JTAG_INIT_AP, ap], [])] }))
    ∧ (∀ (dev : Device) (s : StLinkState) (ap : Nat),
        ¬(s.hw_version < 3 ∧ s.jtag_version < 28) →
        ap ∈ s.opened_aps →
        select_ap dev ap s = (.ok (), s)) := by
  refine ⟨?_, ?_, ?_, ?_⟩
  · intro dev s ap h1 h2 hap
    simp [select_ap, MIN_JTAG_VERSION_MULTI_AP, h1, h2, hap]
  · intro dev s h1 h2
    simp [select_ap, MIN_JTAG_VERSION_MULTI_AP, h1, h2]
  · intro dev s ap resp hmulti hnotin hd hst
    have hsend := send_jtag_command_ok dev [JTAG_COMMAND, JTAG_INIT_AP, ap]
      [] 2 s resp hd hst (by omega)
    have hretry := retry_on_wait_m_ok _ s _ _ hsend
    simp [select_ap, open_ap, MIN_JTAG_VERSION_MULTI_AP, hmulti, hnotin,
      hretry, addTrace]
  · intro dev s ap hmulti hmem
    simp [select_ap, MIN_JTAG_VERSION_MULTI_AP, hmulti, hmem]

/-- Witness for C2 on concrete probe states (hw 2 / jtag 26 without
multi-AP support, hw 2 / jtag 30 with it). -/
theorem claim_C2_witness :
    (select_ap okDev 1
        ⟨2, 26, .Swd, 1800, 1120, false, [], []⟩ =
      (.error (.Stlink (.ProbeFirmwareOutdated 28)),
        ⟨2, 26, .Swd, 1800, 1120, false, [], []⟩))
    ∧ (select_ap okDev 0
        ⟨2, 26, .Swd, 1800, 1120, false, [], []⟩ =
      (.ok (), ⟨2, 26, .Swd, 1800, 1120, false, [], []⟩))
    ∧ (select_ap okDev 3
        ⟨2, 30, .Swd, 1800, 1120, false, [], []⟩ =
      (.ok (), ⟨2, 30, .Swd, 1800, 1120, false, [3],
        [([JTAG_COMMAND, JTAG_INIT_AP, 3], [])]⟩))
    ∧ (select_ap okDev 3
        ⟨2, 30, .Swd, 1800, 1120, false, [3],
          [([JTAG_COMMAND, JTAG_INIT_AP, 3], [])]⟩ =
      (.ok (), ⟨2, 30, .Swd, 1800, 1120, false, [3],
        [([JTAG_COMMAND, JTAG_INIT_AP, 3], [])]⟩)) :=
  ⟨claim_C2.1 okDev _ 1 (by decide) (by decide) (by decide),
   claim_C2.2.1 okDev _ (by decide) (by decide),
   claim_C2.2.2.1 okDev _ 3 [0x80] (by decide) (by decide) rfl rfl,
   claim_C2.2.2.2 okDev _ 3 (by decide) (by decide)⟩

/-! ## Version negotiation (`get_version`) -/

/-- Mirrors the GET_VERSION parse (mod.rs lines 478-480): the first two
response bytes form a big-endian word; the hardware version is bits
15-12, the JTAG version bits 11-6. -/
def version_parse (b0 b1 : Nat) : Nat × Nat :=
  (((b0 * 256 + b1) >>> 12) &&& 0xF, ((b0 * 256 + b1) >>> 6) &&& 0x3F)

/-- Mirrors the firmware gate at the end of `get_version` (mod.rs lines
504-516), as a function of the hardware and JTAG versions stored by the
preceding reads (on `hw_version >= 3` the JTAG version has already been
replaced by byte 2 of GET_VERSION_EXT). -/
def version_check (hw_version jtag_version : Nat) :
    Except StlinkError (Nat × Nat) :=
  if jtag_version = 0 then .error .JTAGNotSupportedOnProbe
  else if hw_version < 3 ∧ jtag_version < MIN_JTAG_VERSION then
    .error (.ProbeFirmwareOutdated MIN_JTAG_VERSION)
  else if hw_version = 3 ∧ jtag_version < MIN_JTAG_VERSION_V3 then
    .error (.ProbeFirmwareOutdated MIN_JTAG_VERSION_V3)
  else .ok (hw_version, jtag_version)

/-- C6: the firmware gate of `get_version` fails with
`JTAGNotSupportedOnProbe` when `jtag_version == 0`, else with
`ProbeFirmwareOutdated(26)` when `hw_version < 3` and
`jtag_version < 26`, else with `ProbeFirmwareOutdated(3)` when
`hw_version == 3` and `jtag_version < 3`, and succeeds otherwise; in
particular hw 2 with jtag 26 passes. -/
theorem claim_C6 :
    (∀ hw jtag : Nat, jtag = 0 →
        version_check hw jtag = .error .JTAGNotSupportedOnProbe)
    ∧ (∀ hw jtag : Nat, jtag ≠ 0 → hw < 3 → jtag < 26 →
        version_check hw jtag = .error (.ProbeFirmwareOutdated 26))
    ∧ (∀ jtag : Nat, jtag ≠ 0 → jtag < 3 →
        version_check 3 jtag = .error (.ProbeFirmwareOutdated 3))
    ∧ (∀ hw jtag : Nat, jtag ≠ 0 → ¬(hw < 3 ∧ jtag < 26) →
        ¬(hw = 3 ∧ jtag < 3) → version_check hw jtag = .ok (hw, jtag))
    ∧ version_check 2 26 = .ok (2, 26) := by
  refine ⟨?_, ?_, ?_, ?_, rfl⟩
  · intro hw jtag h0
    simp [version_check, h0]
  · intro hw jtag h0 h1 h2
    simp [version_check, MIN_JTAG_VERSION, h0, h1, h2]
  · intro jtag h0 h2
    simp [version_check, MIN_JTAG_VERSION, MIN_JTAG_VERSION_V3, h0, h2]
  · intro hw jtag h0 h1 h2
    simp [version_check, MIN_JTAG_VERSION, MIN_JTAG_VERSION_V3, h0, h1, h2]

/-- Witness for C6 at concrete version pairs. -/
theorem claim_C6_witness :
    version_check 2 0 = .error .JTAGNotSupportedOnProbe
    ∧ version_check 2 20 = .error (.ProbeFirmwareOutdated 26)
    ∧ version_check 3 2 = .error (.ProbeFirmwareOutdated 3)
    ∧ version_check 2 26 = .ok (2, 26) :=
  ⟨claim_C6.1 2 0 rfl,
   claim_C6.2.1 2 20 (by decide) (by decide) (by decide),
   claim_C6.2.2.1 2 (by decide) (by decide),
   claim_C6.2.2.2.1 2 26 (by decide) (by decide) (by decide)⟩

/-! ## Probe mode and idle transition -/

/-- Mirrors `constants::Mode`. -/
inductive Mode
  | Dfu
  | MassStorage
  | Jtag
  | Swim
  deriving DecidableEq, Repr

/-- The `match buf[0]` of `get_current_mode` (mod.rs lines 410-416). -/
def mode_from_byte (b : Nat) : Except StlinkError Mode :=
  if b = 0 then .ok .Dfu
  else if b = 1 then .ok .MassStorage
  else if b = 2 then .ok .Jtag
  else if b = 3 then .ok .Swim
  else .error .UnknownMode

/-- Mirrors `get_current_mode` (mod.rs lines 404-421). -/
def get_current_mode (dev : Device) : StM Mode := do
  let buf ← device_write dev [GET_CURRENT_MODE] [] 2
  match mode_from_byte (headByte buf) with
  | .ok m => pure m
  | .error e => stThrow (.Stlink e)

/-- A fire-and-forget transport call (`device.write(cmd, &[], &mut [],
TIMEOUT)` with the unit result). -/
def command_no_reply (dev : Device) (cmd : List Nat) : StM Unit := do
  let _ ← device_write dev cmd [] 0
  pure ()

/-- Mirrors `enter_idle` (mod.rs lines 433-457): issue the exit command
of the current mode (none for mass storage). -/
def enter_idle (dev : Device) : StM Unit := do
  let mode ← get_current_mode dev
  match mode with
  | .Jtag => command_no_reply dev [JTAG_COMMAND, JTAG_EXIT]
  | .Dfu => command_no_reply dev [DFU_COMMAND, DFU_EXIT]
  | .Swim => command_no_reply dev [SWIM_COMMAND, SWIM_EXIT]
  | .MassStorage => pure ()

/-! ## SWO trace reception -/

/-- Mirrors `SwoMode`. -/
inductive SwoMode
  | Uart
  | Manchester
  deriving DecidableEq, Repr

/-- Mirrors the part of `SwoConfig` the driver reads: mode and baud. -/
structure SwoConfig where
  mode : SwoMode
  baud : Nat
  deriving DecidableEq, Repr

/-- Little-endian bytes of a `u16`. -/
def u16_le_bytes (v : Nat) : List Nat := [v % 256, v / 256 % 256]

/-- Little-endian bytes of a `u32`. -/
def u32_le_bytes (v : Nat) : List Nat :=
  [v % 256, v / 256 % 256, v / 65536 % 256, v / 16777216 % 256]

/-- The command frame `start_trace_reception` builds (mod.rs lines
745-750): sub-opcode, 2-byte buffer size 4096, 4-byte baud rate. -/
def swo_start_command (baud : Nat) : List Nat :=
  [JTAG_COMMAND, SWO_START_TRACE_RECEPTION] ++ u16_le_bytes 4096
    ++ u32_le_bytes baud

/-- The command frame `stop_trace_reception` sends. -/
def swo_stop_command : List Nat :=
  [JTAG_COMMAND, SWO_STOP_TRACE_RECEPTION]

/-- Mirrors `start_trace_reception` (mod.rs lines 744-757): the flag is
set only after the command succeeded. -/
def start_trace_reception (dev : Device) (config : SwoConfig) : StM Unit := do
  let _ ← send_jtag_command dev (swo_start_command config.baud) [] 2
  stModify fun s => { s with swo_enabled := true }

/-- Mirrors `stop_trace_reception` (mod.rs lines 760-773): the flag is
cleared only after the command succeeded. -/
def stop_trace_reception (dev : Device) : StM Unit := do
  let _ ← send_jtag_command dev swo_stop_command [] 2
  stModify fun s => { s with swo_enabled := false }

/-- Mirrors the ARM-facing error type (`ArmError`), restricted to the
variants this code produces. -/
inductive ArmError
  | Probe (e : DebugProbeError)
  | NotImplementedApV2
  | ReAttachRequired
  | AddressOutOf32BitAddressSpace
  deriving DecidableEq, Repr

/-- State-and-error passing at the ARM interface layer, still over the
probe driver state. -/
def ArmStM (α : Type) : Type := StLinkState → Except ArmError α × StLinkState

/-- Mirrors `SwoAccess::enable_swo` for `StLink` (mod.rs lines
1183-1193): UART starts trace reception, Manchester fails without
touching the probe. -/
def enable_swo (dev : Device) (config : SwoConfig) : ArmStM Unit := fun s =>
  match config.mode with
  | .Uart =>
    match start_trace_reception dev config s with
    | (.ok _, s1) => (.ok (), s1)
    | (.error e, s1) => (.error (.Probe e), s1)
  | .Manchester => (.error (.Probe (.Stlink .ManchesterSwoNotSupported)), s)

/-- Mirrors `SwoAccess::disable_swo` for `StLink` (mod.rs lines
1195-1198). -/
def disable_swo (dev : Device) : ArmStM Unit := fun s =>
  match stop_trace_reception dev s with
  | (.ok _, s1) => (.ok (), s1)
  | (.error e, s1) => (.error (.Probe e), s1)

/-- Mirrors `Drop for StLink` (mod.rs lines 334-342): best-effort
disable SWO when (and only when) `swo_enabled` is set, then enter idle
mode; errors are ignored. -/
def drop_stlink (dev : Device) (s : StLinkState) : StLinkState :=
  let s1 := if s.swo_enabled then (disable_swo dev s).2 else s
  (enter_idle dev s1).2

/-! ## State-effect lemmas for the SWO claims -/

/-- A transport call only extends the trace. -/
theorem device_write_state (dev : Device) (cmd writeData : List Nat)
    (readLen : Nat) (s : StLinkState) :
    (device_write dev cmd writeData readLen s).2 = addTrace s cmd writeData := by
  simp only [device_write]
  cases hd : dev cmd writeData <;> simp [hd]

/-- A JTAG command, successful or not, leaves behind exactly one new
trace entry and changes nothing else. -/
theorem send_jtag_command_state (dev : Device) (cmd writeData : List Nat)
    (readLen : Nat) (s : StLinkState) :
    (send_jtag_command dev cmd writeData readLen s).2 = addTrace s cmd writeData := by
  rw [send_jtag_command]
  simp only [stBind_eval]
  rcases hd : device_write dev cmd writeData readLen s with ⟨r, s2⟩
  have h2 : s2 = addTrace s cmd writeData := by
    have h := device_write_state dev cmd writeData readLen s
    rw [hd] at h
    exact h
  cases r with
  | ok buf => cases hst : statusFromByte (headByte buf) <;> simp [hst, h2]
  | error e => simp [h2]

/-- The state `stop_trace_reception` leaves behind always carries
exactly the stop command in the trace (flag handling aside). -/
theorem stop_trace_reception_trace (dev : Device) (s : StLinkState) :
    ((stop_trace_reception dev s).2).trace =
      s.trace ++ [(swo_stop_command, [])] := by
  rw [stop_trace_reception]
  simp only [stBind_eval]
  rcases hs : send_jtag_command dev swo_stop_command [] 2 s with ⟨r, s2⟩
  have h2 : s2 = addTrace s swo_stop_command [] := by
    have h := send_jtag_command_state dev swo_stop_command [] 2 s
    rw [hs] at h
    exact h
  cases r with
  | ok buf => simp [stModify, h2, addTrace]
  | error e => simp [h2, addTrace]

/-- `disable_swo` is `stop_trace_reception` as far as the state goes. -/
theorem disable_swo_state (dev : Device) (s : StLinkState) :
    (disable_swo dev s).2 = (stop_trace_reception dev s).2 := by
  rw [disable_swo]
  rcases hs : stop_trace_reception dev s with ⟨r, s2⟩
  cases r <;> simp

/-- A fire-and-forget command leaves behind exactly its trace entry. -/
theorem command_no_reply_state (dev : Device) (cmd : List Nat)
    (s : StLinkState) :
    (command_no_reply dev cmd s).2 = addTrace s cmd [] := by
  rw [command_no_reply]
  simp only [stBind_eval]
  rcases hd : device_write dev cmd [] 0 s with ⟨r, s1⟩
  have h1 : s1 = addTrace s cmd [] := by
    have h := device_write_state dev cmd [] 0 s
    rw [hd] at h
    exact h
  cases r <;> simp [h1]

/-- `enter_idle` only appends mode-query and mode-exit commands to the
trace. -/
theorem enter_idle_new_trace (dev : Device) (s : StLinkState) :
    ∃ l, ((enter_idle dev s).2).trace = s.trace ++ l ∧
      ∀ p ∈ l, p.1 = [GET_CURRENT_MODE] ∨ p.1 = [JTAG_COMMAND, JTAG_EXIT]
        ∨ p.1 = [DFU_COMMAND, DFU_EXIT] ∨ p.1 = [SWIM_COMMAND, SWIM_EXIT] := by
  rw [enter_idle, get_current_mode]
  simp only [stBind_eval]
  rcases hd : device_write dev [GET_CURRENT_MODE] [] 2 s with ⟨r, s2⟩
  have h2 : s2 = addTrace s [GET_CURRENT_MODE] [] := by
    have h := device_write_state dev [GET_CURRENT_MODE] [] 2 s
    rw [hd] at h
    exact h
  cases r with
  | error e =>
    refine ⟨[([GET_CURRENT_MODE], [])], ?_, ?_⟩
    · simp [h2, addTrace]
    · intro p hp
      simp at hp
      simp [hp]
  | ok buf =>
    cases hm : mode_from_byte (headByte buf) with
    | error e =>
      refine ⟨[([GET_CURRENT_MODE], [])], ?_, ?_⟩
      · simp [hm, h2, addTrace]
      · intro p hp
        simp at hp
        simp [hp]
    | ok m =>
      cases m with
      | MassStorage =>
        refine ⟨[([GET_CURRENT_MODE], [])], ?_, ?_⟩
        · simp [hm, h2, addTrace]
        · intro p hp
          simp at hp
          simp [hp]
      | Jtag =>
        refine ⟨[([GET_CURRENT_MODE], []), ([JTAG_COMMAND, JTAG_EXIT], [])],
          ?_, ?_⟩
        · simp [hm, command_no_reply_state, h2, addTrace]
        · intro p hp
          simp at hp
          rcases hp with hp | hp <;> simp [hp]
      | Dfu =>
        refine ⟨[([GET_CURRENT_MODE], []), ([DFU_COMMAND, DFU_EXIT], [])],
          ?_, ?_⟩
        · simp [hm, command_no_reply_state, h2, addTrace]
        · intro p hp
          simp at hp
          rcases hp with hp | hp <;> simp [hp]
      | Swim =>
        refine ⟨[([GET_CURRENT_MODE], []), ([SWIM_COMMAND, SWIM_EXIT], [])],
          ?_, ?_⟩
        · simp [hm, command_no_reply_state, h2, addTrace]
        · intro p hp
          simp at hp
          rcases hp with hp | hp <;> simp [hp]

/-- C10: the `swo_enabled` flag changes only on command success:
`start_trace_reception` sets it after a `JtagOk` reply and leaves it
untouched on any failure; `stop_trace_reception` clears it after a
`JtagOk` reply and leaves it untouched on any failure; `enable_swo`
with Manchester encoding fails without sending any command and without
touching the flag; the drop handler sends the SWO-stop command exactly
when `swo_enabled` is set. -/
theorem claim_C10 :
    (∀ (dev : Device) (cfg : SwoConfig) (s : StLinkState) (resp : List Nat),
        dev (swo_start_command cfg.baud) [] = .ok resp →
        headByte resp = 0x80 →
        start_trace_reception dev cfg s =
          (.ok (), { s with
            swo_enabled := true
            trace := s.trace ++ [(swo_start_command cfg.baud, [])] }))
    ∧ (∀ (dev : Device) (cfg : SwoConfig) (s s1 : StLinkState)
        (e : DebugProbeError),
        start_trace_reception dev cfg s = (.error e, s1) →
        s1.swo_enabled = s.swo_enabled)
    ∧ (∀ (dev : Device) (s : StLinkState) (resp : List Nat),
        dev swo_stop_command [] = .ok resp → headByte resp = 0x80 →
        stop_trace_reception dev s =
          (.ok (), { s with
            swo_enabled := false
            trace := s.trace ++ [(swo_stop_command, [])] }))
    ∧ (∀ (dev : Device) (s s1 : StLinkState) (e : DebugProbeError),
        stop_trace_reception dev s = (.error e, s1) →
        s1.swo_enabled = s.swo_enabled)
    ∧ (∀ (dev : Device) (baud : Nat) (s : StLinkState),
        enable_swo dev ⟨.Manchester, baud⟩ s =
          (.error (.Probe (.Stlink .ManchesterSwoNotSupported)), s))
    ∧ (∀ (dev : Device) (s : StLinkState), s.swo_enabled = false →
        swo_stop_command ∉
          (((drop_stlink dev s).trace).drop s.trace.length).map Prod.fst)
    ∧ (∀ (dev : Device) (s : StLinkState), s.swo_enabled = true →
        swo_stop_command ∈
          (((drop_stlink dev s).trace).drop s.trace.length).map Prod.fst) := by
  refine ⟨?_, ?_, ?_, ?_, ?_, ?_, ?_⟩
  · intro dev cfg s resp hd hst
    have hsend := send_jtag_command_ok dev (swo_start_command cfg.baud) [] 2 s
      resp hd hst (by omega)
    simp [start_trace_reception, hsend, stModify, addTrace]
  · intro dev cfg s s1 e h
    rw [start_trace_reception] at h
    simp only [stBind_eval] at h
    rcases hsend : send_jtag_command dev (swo_start_command cfg.baud) [] 2 s
      with ⟨r, s2⟩
    have h2 : s2 = addTrace s (swo_start_command cfg.baud) [] := by
      have hh := send_jtag_command_state dev (swo_start_command cfg.baud) [] 2 s
      rw [hsend] at hh
      exact hh
    rw [hsend] at h
    cases r with
    | ok buf => simp [stModify] at h
    | error e2 =>
      simp at h
      rw [← h.2, h2, addTrace]
  · intro dev s resp hd hst
    have hsend := send_jtag_command_ok dev swo_stop_command [] 2 s
      resp hd hst (by omega)
    simp [stop_trace_reception, hsend, stModify, addTrace]
  · intro dev s s1 e h
    rw [stop_trace_reception] at h
    simp only [stBind_eval] at h
    rcases hsend : send_jtag_command dev swo_stop_command [] 2 s with ⟨r, s2⟩
    have h2 : s2 = addTrace s swo_stop_command [] := by
      have hh := send_jtag_command_state dev swo_stop_command [] 2 s
      rw [hsend] at hh
      exact hh
    rw [hsend] at h
    cases r with
    | ok buf => simp [stModify] at h
    | error e2 =>
      simp at h
      rw [← h.2, h2, addTrace]
  · intro dev baud s
    rfl
  · intro dev s hflag
    rw [drop_stlink]
    simp only [hflag, if_false, Bool.false_eq_true]
    obtain ⟨l, hl, hmem⟩ := enter_idle_new_trace dev s
    rw [hl, List.drop_left]
    intro hcontra
    simp only [List.mem_map] at hcontra
    obtain ⟨p, hp, hpeq⟩ := hcontra
    rcases hmem p hp with h | h | h | h <;>
      rw [h] at hpeq <;> simp [swo_stop_command, GET_CURRENT_MODE,
        JTAG_COMMAND, JTAG_EXIT, DFU_COMMAND, DFU_EXIT, SWIM_COMMAND,
        SWIM_EXIT, SWO_STOP_TRACE_RECEPTION] at hpeq
  · intro dev s hflag
    rw [drop_stlink]
    simp only [hflag, if_true]
    have hstop : ((disable_swo dev s).2).trace =
        s.trace ++ [(swo_stop_command, [])] := by
      rw [disable_swo_state]
      exact stop_trace_reception_trace dev s
    obtain ⟨l, hl, hmem⟩ := enter_idle_new_trace dev ((disable_swo dev s).2)
    rw [hl, hstop, List.append_assoc, List.drop_left]
    simp

/-- Witness for C10 on concrete probe states and the well-behaved
device. -/
theorem claim_C10_witness :
    (start_trace_reception okDev ⟨.Uart, 115200⟩
        ⟨2, 30, .Swd, 1800, 1120, false, [0], []⟩ =
      (.ok (), { (⟨2, 30, .Swd, 1800, 1120, false, [0], []⟩ : StLinkState) with
        swo_enabled := true
        trace := ([] : List (List Nat × List Nat)) ++
          [(swo_start_command 115200, [])] }))
    ∧ (stop_trace_reception okDev
        ⟨2, 30, .Swd, 1800, 1120, true, [0], []⟩ =
      (.ok (), { (⟨2, 30, .Swd, 1800, 1120, true, [0], []⟩ : StLinkState) with
        swo_enabled := false
        trace := ([] : List (List Nat × List Nat)) ++ [(swo_stop_command, [])] }))
    ∧ (enable_swo okDev ⟨.Manchester, 115200⟩
        ⟨2, 30, .Swd, 1800, 1120, false, [0], []⟩ =
      (.error (.Probe (.Stlink .ManchesterSwoNotSupported)),
        ⟨2, 30, .Swd, 1800, 1120, false, [0], []⟩))
    ∧ (swo_stop_command ∉
        (((drop_stlink okDev ⟨2, 30, .Swd, 1800, 1120, false, [0], []⟩).trace).drop
          (([] : List (List Nat × List Nat)).length)).map Prod.fst)
    ∧ (swo_stop_command ∈
        (((drop_stlink okDev ⟨2, 30, .Swd, 1800, 1120, true, [0], []⟩).trace).drop
          (([] : List (List Nat × List Nat)).length)).map Prod.fst) :=
  ⟨claim_C10.1 okDev ⟨.Uart, 115200⟩ _ [0x80] rfl rfl,
   claim_C10.2.2.1 okDev _ [0x80] rfl rfl,
   claim_C10.2.2.2.2.1 okDev 115200 _,
   claim_C10.2.2.2.2.2.1 okDev
     ⟨2, 30, .Swd, 1800, 1120, false, [0], []⟩ rfl,
   claim_C10.2.2.2.2.2.2 okDev
     ⟨2, 30, .Swd, 1800, 1120, true, [0], []⟩ rfl⟩

/-! ## The ARM debug adapter (`StlinkArmDebug`) -/

/-- Mirrors `supports_dp_bank_selection` (mod.rs lines 426-429). -/
def supports_dp_bank_selection (s : StLinkState) : Bool :=
  (s.hw_version == 2 && s.jtag_version >= MIN_JTAG_VERSION_DP_BANK_SEL)
    || s.hw_version >= 3

/-- Mirrors `DpAddress`: the default DP or a multidrop target. -/
inductive DpAddress
  | Default
  | Multidrop (targetsel : Nat)
  deriving DecidableEq, Repr

/-- Mirrors `DpRegisterAddress` (bank select plus register address; the
type lives in `architecture/arm/dp`, outside the given sources, which
use its `bank` field and its `u8` conversion). -/
structure DpRegisterAddress where
  bank : Option Nat
  address : Nat
  deriving DecidableEq, Repr

/-- Modelled from the spec: the `u8` conversion of a `DpRegisterAddress`
performed when forwarding to the probe is defined outside the given
sources; the claims only need it as some function of the address. -/
def dpRegAddrByte (a : DpRegisterAddress) : Nat := a.address % 256

/-- Mirrors the `StlinkArmDebug` struct (mod.rs lines 1254-1266):
the owned probe, the connected-to-DP flag and the discovered APs
(modelled as their v1 indices). -/
structure StlinkArmDebugState where
  probe : StLinkState
  connected_to_dp : Bool
  access_ports : List Nat
  deriving DecidableEq, Repr

/-- Mirrors `StlinkArmDebug::new` (mod.rs lines 1269-1276). -/
def StlinkArmDebug_new (probe : StLinkState) : StlinkArmDebugState :=
  ⟨probe, false, []⟩

/-- State-and-error passing at the adapter layer. -/
def ArmM (α : Type) : Type :=
  StlinkArmDebugState → Except ArmError α × StlinkArmDebugState

instance : Monad ArmM where
  pure a := fun s => (.ok a, s)
  bind m f := fun s =>
    match m s with
    | (.ok a, s1) => f a s1
    | (.error e, s1) => (.error e, s1)

def amGet : ArmM StlinkArmDebugState := fun s => (.ok s, s)

def amThrow {α : Type} (e : ArmError) : ArmM α := fun s => (.error e, s)

def amModify (f : StlinkArmDebugState → StlinkArmDebugState) : ArmM Unit :=
  fun s => (.ok (), f s)

@[simp] theorem amBind_eval {α β : Type} (m : ArmM α) (f : α → ArmM β)
    (s : StlinkArmDebugState) :
    (m >>= f) s = match m s with
      | (.ok a, s1) => f a s1
      | (.error e, s1) => (.error e, s1) := rfl

@[simp] theorem amPure_eval {α : Type} (a : α) (s : StlinkArmDebugState) :
    (pure a : ArmM α) s = (.ok a, s) := rfl

@[simp] theorem amGet_eval (s : StlinkArmDebugState) : amGet s = (.ok s, s) := rfl

@[simp] theorem amThrow_eval {α : Type} (e : ArmError) (s : StlinkArmDebugState) :
    (amThrow e : ArmM α) s = (.error e, s) := rfl

@[simp] theorem amModify_eval (f : StlinkArmDebugState → StlinkArmDebugState)
    (s : StlinkArmDebugState) : amModify f s = (.ok (), f s) := rfl

/-- Run a probe-driver action on the `probe` component, converting the
error through `ArmError::Probe` (the `?`-conversion in the Rust). -/
def liftProbe {α : Type} (act : StM α) : ArmM α := fun s =>
  match act s.probe with
  | (.ok a, p1) => (.ok a, { s with probe := p1 })
  | (.error e, p1) => (.error (.Probe e), { s with probe := p1 })

/-- Mirrors `select_dp` (mod.rs lines 1278-1301): non-default DPs are
rejected, and on the first call the connected flag is set and the AP
set is populated.  `valid_access_ports` (the AP discovery walk, defined
outside the given sources) is abstracted by the `vap` parameter holding
its result; its probe traffic is not modelled. -/
def select_dp (vap : List Nat) (dp : DpAddress) : ArmM Unit := do
  let s ← amGet
  if dp ≠ DpAddress.Default then
    amThrow (.Probe (.Stlink .MultidropNotSupported))
  else if s.connected_to_dp = false then
    amModify fun s1 => { s1 with connected_to_dp := true, access_ports := vap }
  else
    pure ()

/-- Mirrors `select_dp_and_dp_bank` (mod.rs lines 1303-1322). -/
def select_dp_and_dp_bank (vap : List Nat) (dp : DpAddress)
    (address : DpRegisterAddress) : ArmM Unit := do
  select_dp vap dp
  match address.bank with
  | none => pure ()
  | some bank =>
    if bank ≠ 0 then do
      let s ← amGet
      if supports_dp_bank_selection s.probe = false then
        amThrow (.Probe (.Stlink .BanksNotAllowedOnDPRegister))
      else pure ()
    else pure ()

/-- The command frame of `read_register` (mod.rs lines 818-825). -/
def read_dap_reg_command (port addr : Nat) : List Nat :=
  [JTAG_COMMAND, JTAG_READ_DAP_REG, port % 256, port / 256 % 256, addr, 0]

/-- The command frame of `write_register` (mod.rs lines 837-848). -/
def write_dap_reg_command (port addr value : Nat) : List Nat :=
  [JTAG_COMMAND, JTAG_WRITE_DAP_REG, port % 256, port / 256 % 256, addr, 0]
    ++ u32_le_bytes value

/-- A `u32` from the first four bytes of a buffer, little-endian. -/
def u32_from_le_bytes (l : List Nat) : Nat :=
  headByte l + 256 * headByte (l.drop 1) + 65536 * headByte (l.drop 2)
    + 16777216 * headByte (l.drop 3)

/-- Mirrors `read_register` (mod.rs lines 815-830): wait-retried send,
value decoded little-endian from response bytes 4..8. -/
def read_register (dev : Device) (port addr : Nat) : StM Nat := do
  let buf ← retry_on_wait_m
    (send_jtag_command dev (read_dap_reg_command port addr) [] 8)
  pure (u32_from_le_bytes (buf.drop 4))

/-- Mirrors `write_register` (mod.rs lines 833-854): wait-retried send
of the value, little-endian. -/
def write_register (dev : Device) (port addr value : Nat) : StM Unit := do
  let _ ← retry_on_wait_m
    (send_jtag_command dev (write_dap_reg_command port addr value) [] 2)
  pure ()

/-- Mirrors `read_raw_dp_register` (mod.rs lines 1338-1351). -/
def read_raw_dp_register (dev : Device) (vap : List Nat) (dp : DpAddress)
    (address : DpRegisterAddress) : ArmM Nat := do
  select_dp_and_dp_bank vap dp address
  let result ← liftProbe (read_register dev DP_PORT (dpRegAddrByte address))
  pure result

/-- Mirrors `write_raw_dp_register` (mod.rs lines 1354-1364). -/
def write_raw_dp_register (dev : Device) (vap : List Nat) (dp : DpAddress)
    (address : DpRegisterAddress) (value : Nat) : ArmM Unit := do
  select_dp_and_dp_bank vap dp address
  liftProbe (write_register dev DP_PORT (dpRegAddrByte address) value)

/-- The state `select_dp` leaves behind on the default DP. -/
def connect_dp_state (vap : List Nat) (s : StlinkArmDebugState) :
    StlinkArmDebugState :=
  if s.connected_to_dp then s
  else { s with connected_to_dp := true, access_ports := vap }

/-- `select_dp` on the default DP always succeeds and only connects. -/
theorem select_dp_default (vap : List Nat) (s : StlinkArmDebugState) :
    select_dp vap .Default s = (.ok (), connect_dp_state vap s) := by
  rw [select_dp, connect_dp_state]
  cases hc : s.connected_to_dp <;> simp [hc]

@[simp] theorem connect_dp_state_probe (vap : List Nat)
    (s : StlinkArmDebugState) : (connect_dp_state vap s).probe = s.probe := by
  rw [connect_dp_state]
  cases hc : s.connected_to_dp <;> simp

/-- `select_dp_and_dp_bank` on the default DP fails on a non-zero bank
without DP-bank-selection support. -/
theorem select_dp_bank_fail (vap : List Nat) (addr : DpRegisterAddress)
    (s : StlinkArmDebugState) (b : Nat) (hbank : addr.bank = some b)
    (hb : b ≠ 0) (hsupp : supports_dp_bank_selection s.probe = false) :
    select_dp_and_dp_bank vap .Default addr s =
      (.error (.Probe (.Stlink .BanksNotAllowedOnDPRegister)),
        connect_dp_state vap s) := by
  rw [select_dp_and_dp_bank]
  simp only [amBind_eval, select_dp_default]
  rw [hbank]
  simp [hb, hsupp]

/-- `select_dp_and_dp_bank` on the default DP succeeds when the bank is
absent, zero, or bank selection is supported. -/
theorem select_dp_bank_ok (vap : List Nat) (addr : DpRegisterAddress)
    (s : StlinkArmDebugState)
    (h : ∀ b, addr.bank = some b → b = 0 ∨
      supports_dp_bank_selection s.probe = true) :
    select_dp_and_dp_bank vap .Default addr s =
      (.ok (), connect_dp_state vap s) := by
  rw [select_dp_and_dp_bank]
  simp only [amBind_eval, select_dp_default]
  cases hbank : addr.bank with
  | none => simp
  | some b =>
    rcases h b hbank with rfl | hs
    · simp
    · by_cases hb0 : b = 0 <;> simp [hb0, hs]

/-- `liftProbe` of a successful probe action. -/
theorem liftProbe_ok {α : Type} (act : StM α) (s : StlinkArmDebugState)
    (v : α) (p1 : StLinkState) (h : act s.probe = (.ok v, p1)) :
    liftProbe act s = (.ok v, { s with probe := p1 }) := by
  rw [liftProbe, h]

/-- `read_register` on a device that answers the read command with
`JtagOk`. -/
theorem read_register_ok (dev : Device) (port addr : Nat) (s : StLinkState)
    (resp : List Nat) (hd : dev (read_dap_reg_command port addr) [] = .ok resp)
    (hst : headByte resp = 0x80) :
    read_register dev port addr s =
      (.ok (u32_from_le_bytes (((resp ++ List.replicate 8 0).take 8).drop 4)),
        addTrace s (read_dap_reg_command port addr) []) := by
  have hsend := send_jtag_command_ok dev (read_dap_reg_command port addr)
    [] 8 s resp hd hst (by omega)
  have hretry := retry_on_wait_m_ok _ s _ _ hsend
  rw [read_register]
  simp [hretry]

/-- `write_register` on a device that answers the write command with
`JtagOk`. -/
theorem write_register_ok (dev : Device) (port addr value : Nat)
    (s : StLinkState) (resp : List Nat)
    (hd : dev (write_dap_reg_command port addr value) [] = .ok resp)
    (hst : headByte resp = 0x80) :
    write_register dev port addr value s =
      (.ok (), addTrace s (write_dap_reg_command port addr value) []) := by
  have hsend := send_jtag_command_ok dev (write_dap_reg_command port addr value)
    [] 2 s resp hd hst (by omega)
  have hretry := retry_on_wait_m_ok _ s _ _ hsend
  rw [write_register]
  simp [hretry]

/-- C7: DP bank selection is supported exactly when
`(hw_version == 2 ∧ jtag_version ≥ 32) ∨ hw_version ≥ 3`; a raw DP
register read or write on the default DP whose address carries a
non-zero bank fails with `BanksNotAllowedOnDPRegister` on a probe
without that support, issuing no probe command; otherwise the access is
forwarded to the driver as a DAP register command on port `0xFFFF`
(`DP_PORT`). -/
theorem claim_C7 :
    (∀ s : StLinkState, supports_dp_bank_selection s = true ↔
        ((s.hw_version = 2 ∧ 32 ≤ s.jtag_version) ∨ 3 ≤ s.hw_version))
    ∧ (∀ (dev : Device) (vap : List Nat) (s : StlinkArmDebugState)
        (addr : DpRegisterAddress) (b : Nat),
        addr.bank = some b → b ≠ 0 →
        supports_dp_bank_selection s.probe = false →
        read_raw_dp_register dev vap .Default addr s =
          (.error (.Probe (.Stlink .BanksNotAllowedOnDPRegister)),
            connect_dp_state vap s))
    ∧ (∀ (dev : Device) (vap : List Nat) (s : StlinkArmDebugState)
        (addr : DpRegisterAddress) (b value : Nat),
        addr.bank = some b → b ≠ 0 →
        supports_dp_bank_selection s.probe = false →
        write_raw_dp_register dev vap .Default addr value s =
          (.error (.Probe (.Stlink .BanksNotAllowedOnDPRegister)),
            connect_dp_state vap s))
    ∧ (∀ (dev : Device) (vap : List Nat) (s : StlinkArmDebugState)
        (addr : DpRegisterAddress) (resp : List Nat),
        (∀ b, addr.bank = some b → b = 0 ∨
          supports_dp_bank_selection s.probe = true) →
        dev (read_dap_reg_command DP_PORT (dpRegAddrByte addr)) [] = .ok resp →
        headByte resp = 0x80 →
        ∃ v, read_raw_dp_register dev vap .Default addr s =
          (.ok v, { connect_dp_state vap s with
            probe := addTrace s.probe
              (read_dap_reg_command DP_PORT (dpRegAddrByte addr)) [] }))
    ∧ (∀ (dev : Device) (vap : List Nat) (s : StlinkArmDebugState)
        (addr : DpRegisterAddress) (value : Nat) (resp : List Nat),
        (∀ b, addr.bank = some b → b = 0 ∨
          supports_dp_bank_selection s.probe = true) →
        dev (write_dap_reg_command DP_PORT (dpRegAddrByte addr) value) []
          = .ok resp →
        headByte resp = 0x80 →
        write_raw_dp_register dev vap .Default addr value s =
          (.ok (), { connect_dp_state vap s with
            probe := addTrace s.probe
              (write_dap_reg_command DP_PORT (dpRegAddrByte addr) value) [] })) := by
  refine ⟨?_, ?_, ?_, ?_, ?_⟩
  · intro s
    simp [supports_dp_bank_selection, MIN_JTAG_VERSION_DP_BANK_SEL]
  · intro dev vap s addr b hbank hb hsupp
    rw [read_raw_dp_register]
    simp only [amBind_eval]
    rw [select_dp_bank_fail vap addr s b hbank hb hsupp]
  · intro dev vap s addr b value hbank hb hsupp
    rw [write_raw_dp_register]
    simp only [amBind_eval]
    rw [select_dp_bank_fail vap addr s b hbank hb hsupp]
  · intro dev vap s addr resp hok hd hst
    rw [read_raw_dp_register]
    simp only [amBind_eval]
    rw [select_dp_bank_ok vap addr s hok]
    have hread := read_register_ok dev DP_PORT (dpRegAddrByte addr)
      s.probe resp hd hst
    have hlift := liftProbe_ok (read_register dev DP_PORT (dpRegAddrByte addr))
      (connect_dp_state vap s) _ _
      (by rw [connect_dp_state_probe]; exact hread)
    refine ⟨u32_from_le_bytes (((resp ++ List.replicate 8 0).take 8).drop 4), ?_⟩
    simp [hlift]
  · intro dev vap s addr value resp hok hd hst
    rw [write_raw_dp_register]
    simp only [amBind_eval]
    rw [select_dp_bank_ok vap addr s hok]
    have hwrite := write_register_ok dev DP_PORT (dpRegAddrByte addr) value
      s.probe resp hd hst
    have hlift := liftProbe_ok
      (write_register dev DP_PORT (dpRegAddrByte addr) value)
      (connect_dp_state vap s) _ _
      (by rw [connect_dp_state_probe]; exact hwrite)
    simp [hlift]

/-- Witness for C7 on a hw 2 / jtag 30 probe (no DP bank selection) and
a hw 3 probe (with DP bank selection). -/
theorem claim_C7_witness :
    (supports_dp_bank_selection ⟨2, 30, .Swd, 1800, 1120, false, [0], []⟩
        = true ↔ (((2 : Nat) = 2 ∧ 32 ≤ 30) ∨ 3 ≤ 2))
    ∧ read_raw_dp_register okDev [0] .Default ⟨some 1, 4⟩
        ⟨⟨2, 30, .Swd, 1800, 1120, false, [0], []⟩, true, [0]⟩ =
      (.error (.Probe (.Stlink .BanksNotAllowedOnDPRegister)),
        connect_dp_state [0]
          ⟨⟨2, 30, .Swd, 1800, 1120, false, [0], []⟩, true, [0]⟩)
    ∧ write_raw_dp_register okDev [0] .Default ⟨some 1, 4⟩ 0xDEAD
        ⟨⟨2, 30, .Swd, 1800, 1120, false, [0], []⟩, true, [0]⟩ =
      (.error (.Probe (.Stlink .BanksNotAllowedOnDPRegister)),
        connect_dp_state [0]
          ⟨⟨2, 30, .Swd, 1800, 1120, false, [0], []⟩, true, [0]⟩)
    ∧ (∃ v, read_raw_dp_register okDev [0] .Default ⟨some 1, 4⟩
        ⟨⟨3, 5, .Swd, 1800, 1120, false, [0], []⟩, true, [0]⟩ =
      (.ok v, { connect_dp_state [0]
          ⟨⟨3, 5, .Swd, 1800, 1120, false, [0], []⟩, true, [0]⟩ with
        probe := addTrace ⟨3, 5, .Swd, 1800, 1120, false, [0], []⟩
          (read_dap_reg_command DP_PORT (dpRegAddrByte ⟨some 1, 4⟩)) [] }))
    ∧ write_raw_dp_register okDev [0] .Default ⟨some 1, 4⟩ 77
        ⟨⟨3, 5, .Swd, 1800, 1120, false, [0], []⟩, true, [0]⟩ =
      (.ok (), { connect_dp_state [0]
          ⟨⟨3, 5, .Swd, 1800, 1120, false, [0], []⟩, true, [0]⟩ with
        probe := addTrace ⟨3, 5, .Swd, 1800, 1120, false, [0], []⟩
          (write_dap_reg_command DP_PORT (dpRegAddrByte ⟨some 1, 4⟩) 77) [] }) :=
  ⟨claim_C7.1 ⟨2, 30, .Swd, 1800, 1120, false, [0], []⟩,
   claim_C7.2.1 okDev [0] _ ⟨some 1, 4⟩ 1 rfl (by decide) rfl,
   claim_C7.2.2.1 okDev [0] _ ⟨some 1, 4⟩ 1 0xDEAD rfl (by decide) rfl,
   claim_C7.2.2.2.1 okDev [0] _ ⟨some 1, 4⟩ [0x80]
     (fun _ _ => Or.inr rfl) rfl rfl,
   claim_C7.2.2.2.2 okDev [0] _ ⟨some 1, 4⟩ 77 [0x80]
     (fun _ _ => Or.inr rfl) rfl rfl⟩

/-! ## Session reattach (`session.rs`) -/

/-- Mirrors `current_debug_port` for `StlinkArmDebug` (mod.rs lines
1440-1447). -/
def current_debug_port (s : StlinkArmDebugState) : Option DpAddress :=
  if s.connected_to_dp then some .Default else none

/-- Mirrors `select_debug_port` (mod.rs lines 1449-1451). -/
def select_debug_port (vap : List Nat) (dp : DpAddress) : ArmM Unit :=
  select_dp vap dp

/-- Mirrors `reattach_arm_interface` (session.rs lines 663-698) at the
ST-Link instance: remember `current_debug_port()`, close the swapped-out
interface, detach and re-attach the probe, build a fresh adapter with
`StlinkArmDebug::new`, and re-select the previously selected DP if there
was one.  `close`/`detach`/`attach_to_unspecified` only touch
probe-internal state; the probe state they leave behind is abstracted as
`reattached_probe`. -/
def reattach_arm_interface (reattached_probe : StLinkState) (vap : List Nat)
    (s : StlinkArmDebugState) : Except ArmError StlinkArmDebugState :=
  let current_dp := current_debug_port s
  let fresh := StlinkArmDebug_new reattached_probe
  match current_dp with
  | none => .ok fresh
  | some dp =>
    match select_debug_port vap dp fresh with
    | (.ok _, s1) => .ok s1
    | (.error e, _) => .error e

/-- Mirrors the `debug_device_unlock` dispatch (session.rs lines
258-265): success keeps the interface, `ReAttachRequired` triggers the
reattach dance, any other error surfaces. -/
def handle_unlock_result (unlock_res : Except ArmError Unit)
    (reattached_probe : StLinkState) (vap : List Nat)
    (s : StlinkArmDebugState) : Except ArmError StlinkArmDebugState :=
  match unlock_res with
  | .ok _ => .ok s
  | .error .ReAttachRequired => reattach_arm_interface reattached_probe vap s
  | .error e => .error e

/-- C8: the reattach dance always succeeds on the ST-Link adapter and
preserves `current_debug_port()`; consequently, whenever the
`debug_device_unlock` dispatch (including the `ReAttachRequired` path)
returns a live interface, that interface reports the same DpAddress as
before. -/
theorem claim_C8 :
    (∀ (reattached_probe : StLinkState) (vap : List Nat)
        (s : StlinkArmDebugState),
        ∃ s1, reattach_arm_interface reattached_probe vap s = .ok s1 ∧
          current_debug_port s1 = current_debug_port s)
    ∧ (∀ (unlock_res : Except ArmError Unit) (reattached_probe : StLinkState)
        (vap : List Nat) (s s1 : StlinkArmDebugState),
        handle_unlock_result unlock_res reattached_probe vap s = .ok s1 →
        current_debug_port s1 = current_debug_port s) := by
  have hmain : ∀ (reattached_probe : StLinkState) (vap : List Nat)
      (s : StlinkArmDebugState),
      ∃ s1, reattach_arm_interface reattached_probe vap s = .ok s1 ∧
        current_debug_port s1 = current_debug_port s := by
    intro p vap s
    rw [reattach_arm_interface]
    cases hc : s.connected_to_dp with
    | false =>
      refine ⟨StlinkArmDebug_new p, ?_, ?_⟩
      · simp [current_debug_port, hc]
      · simp [current_debug_port, hc, StlinkArmDebug_new]
    | true =>
      rw [show current_debug_port s = some .Default by
        simp [current_debug_port, hc]]
      simp only [select_debug_port, select_dp_default]
      refine ⟨connect_dp_state vap (StlinkArmDebug_new p), rfl, ?_⟩
      simp [current_debug_port, hc, StlinkArmDebug_new, connect_dp_state]
  refine ⟨hmain, ?_⟩
  intro res p vap s s1 h
  cases res with
  | ok v =>
    have h2 : Except.ok s = Except.ok s1 := h
    injection h2 with h3
    rw [h3]
  | error e =>
    cases e with
    | ReAttachRequired =>
      obtain ⟨s2, hs2, hdp⟩ := hmain p vap s
      have h2 : reattach_arm_interface p vap s = Except.ok s1 := h
      rw [hs2] at h2
      injection h2 with h3
      rw [← h3]
      exact hdp
    | Probe e2 =>
      exact Except.noConfusion
        (show (Except.error (ArmError.Probe e2) :
          Except ArmError StlinkArmDebugState) = .ok s1 from h)
    | NotImplementedApV2 =>
      exact Except.noConfusion
        (show (Except.error ArmError.NotImplementedApV2 :
          Except ArmError StlinkArmDebugState) = .ok s1 from h)
    | AddressOutOf32BitAddressSpace =>
      exact Except.noConfusion
        (show (Except.error ArmError.AddressOutOf32BitAddressSpace :
          Except ArmError StlinkArmDebugState) = .ok s1 from h)

/-- Witness for C8: dispatch of a `ReAttachRequired` unlock on a
connected adapter. -/
theorem claim_C8_witness :
    handle_unlock_result (.error .ReAttachRequired)
        ⟨2, 30, .Swd, 1800, 1120, false, [], []⟩ [0]
        ⟨⟨2, 30, .Swd, 1800, 1120, false, [0], []⟩, true, [0]⟩ =
      .ok ⟨⟨2, 30, .Swd, 1800, 1120, false, [], []⟩, true, [0]⟩ ∧
    current_debug_port ⟨⟨2, 30, .Swd, 1800, 1120, false, [], []⟩, true, [0]⟩ =
      current_debug_port
        ⟨⟨2, 30, .Swd, 1800, 1120, false, [0], []⟩, true, [0]⟩ :=
  ⟨rfl,
   claim_C8.2 (.error .ReAttachRequired)
     ⟨2, 30, .Swd, 1800, 1120, false, [], []⟩ [0]
     ⟨⟨2, 30, .Swd, 1800, 1120, false, [0], []⟩, true, [0]⟩
     ⟨⟨2, 30, .Swd, 1800, 1120, false, [], []⟩, true, [0]⟩ rfl⟩

/-! ## Driver memory I/O -/

/-- Mirrors `memory_command` (mod.rs lines 1166-1180): 9 bytes of
category opcode, sub-opcode, little-endian address, little-endian
16-bit length and AP selector. -/
def memory_command (command address len apsel : Nat) : List Nat :=
  [JTAG_COMMAND, command] ++ u32_le_bytes address
    ++ [len % 256, len / 256 % 256, apsel]

/-- The body of the `retry_on_wait` closure of the memory reads
(mod.rs lines 886-895): transfer, then query the RW status. -/
def mem_transfer_read (dev : Device) (cmd : List Nat) (readLen : Nat) :
    StM (List Nat) := do
  let data ← device_write dev cmd [] readLen
  get_last_rw_status dev
  pure data

/-- The body of the `retry_on_wait` closure of the memory writes
(mod.rs lines 1071-1080): transfer, then query the RW status. -/
def mem_transfer_write (dev : Device) (cmd data : List Nat) : StM Unit := do
  let _ ← device_write dev cmd data 0
  get_last_rw_status dev

/-- Mirrors `read_mem_32bit` (mod.rs lines 858-900) on its
non-panicking inputs.  The source `assert!`s `len ≤ STLINK_MAX_READ_LEN`
and `len % 4 == 0` (panicking on violation); theorems about this
definition carry those as hypotheses. -/
def read_mem_32bit (dev : Device) (address byteLen apsel : Nat) :
    StM (List Nat) := do
  if byteLen = 0 then pure []
  else do
    select_ap dev apsel
    if address % 4 ≠ 0 then stThrow (.Stlink .UnalignedAddress)
    else retry_on_wait_m (mem_transfer_read dev
      (memory_command JTAG_READMEM_32BIT address byteLen apsel) byteLen)

/-- Mirrors `read_mem_16bit` (mod.rs lines 903-941) on its
non-panicking inputs (the source `assert!`s `len % 2 == 0`). -/
def read_mem_16bit (dev : Device) (address byteLen apsel : Nat) :
    StM (List Nat) := do
  if byteLen = 0 then pure []
  else do
    select_ap dev apsel
    if address % 2 ≠ 0 then stThrow (.Stlink .UnalignedAddress)
    else retry_on_wait_m (mem_transfer_read dev
      (memory_command JTAG_READMEM_16BIT address byteLen apsel) byteLen)

/-- Mirrors `write_mem_32bit` (mod.rs lines 1000-1043) on its
non-panicking inputs (the source `assert!`s
`len ≤ STLINK_MAX_WRITE_LEN` and `len % 4 == 0`). -/
def write_mem_32bit (dev : Device) (address : Nat) (data : List Nat)
    (apsel : Nat) : StM Unit := do
  if data = [] then pure ()
  else do
    select_ap dev apsel
    if address % 4 ≠ 0 then stThrow (.Stlink .UnalignedAddress)
    else retry_on_wait_m (mem_transfer_write dev
      (memory_command JTAG_WRITEMEM_32BIT address data.length apsel) data)

/-- Mirrors `write_mem_16bit` (mod.rs lines 1045-1083) on its
non-panicking inputs (the source `assert!`s `len % 2 == 0`). -/
def write_mem_16bit (dev : Device) (address : Nat) (data : List Nat)
    (apsel : Nat) : StM Unit := do
  if data = [] then pure ()
  else do
    select_ap dev apsel
    if address % 2 ≠ 0 then stThrow (.Stlink .UnalignedAddress)
    else retry_on_wait_m (mem_transfer_write dev
      (memory_command JTAG_WRITEMEM_16BIT address data.length apsel) data)

/-- The condition under which `select_ap` is a no-op: either a
single-AP probe asked for AP 0, or the AP is already open. -/
def selectApNoop (s : StLinkState) (ap : Nat) : Prop :=
  if s.hw_version < 3 ∧ s.jtag_version < MIN_JTAG_VERSION_MULTI_AP then ap = 0
  else ap ∈ s.opened_aps

instance (s : StLinkState) (ap : Nat) : Decidable (selectApNoop s ap) := by
  rw [selectApNoop]
  infer_instance

/-- `select_ap` under its no-op condition leaves the state untouched. -/
theorem select_ap_noop (dev : Device) (ap : Nat) (s : StLinkState)
    (h : selectApNoop s ap) : select_ap dev ap s = (.ok (), s) := by
  rw [selectApNoop] at h
  rw [select_ap]
  by_cases hc : s.hw_version < 3 ∧ s.jtag_version < MIN_JTAG_VERSION_MULTI_AP
  · rw [if_pos hc] at h
    simp [hc, h]
  · rw [if_neg hc] at h
    simp [hc, h]

/-- A device that answers every command with a `JtagOk` status byte. -/
def dev_all_jtag_ok (dev : Device) : Prop :=
  ∀ cmd writeData, ∃ resp, dev cmd writeData = .ok resp ∧ headByte resp = 0x80

theorem okDev_all_jtag_ok : dev_all_jtag_ok okDev :=
  fun _ _ => ⟨[0x80], rfl, rfl⟩

/-- Evaluation of a read transfer body on a well-behaved device. -/
theorem mem_transfer_read_ok (dev : Device) (cmd : List Nat) (readLen : Nat)
    (s : StLinkState) (resp1 resp2 : List Nat)
    (hd1 : dev cmd [] = .ok resp1)
    (hd2 : dev [JTAG_COMMAND, JTAG_GETLASTRWSTATUS2] [] = .ok resp2)
    (hs2 : headByte resp2 = 0x80) :
    mem_transfer_read dev cmd readLen s =
      (.ok ((resp1 ++ List.replicate readLen 0).take readLen),
        { s with trace := s.trace ++
          [(cmd, []), ([JTAG_COMMAND, JTAG_GETLASTRWSTATUS2], [])] }) := by
  rw [mem_transfer_read]
  have hsend := send_jtag_command_ok dev [JTAG_COMMAND, JTAG_GETLASTRWSTATUS2]
    [] 12 (addTrace s cmd []) resp2 hd2 hs2 (by omega)
  simp only [addTrace] at hsend
  simp [device_write, hd1, get_last_rw_status, hsend, addTrace,
    List.append_assoc]

/-- Evaluation of a write transfer body on a well-behaved device. -/
theorem mem_transfer_write_ok (dev : Device) (cmd data : List Nat)
    (s : StLinkState) (resp1 resp2 : List Nat)
    (hd1 : dev cmd data = .ok resp1)
    (hd2 : dev [JTAG_COMMAND, JTAG_GETLASTRWSTATUS2] [] = .ok resp2)
    (hs2 : headByte resp2 = 0x80) :
    mem_transfer_write dev cmd data s =
      (.ok (), { s with trace := s.trace ++
        [(cmd, data), ([JTAG_COMMAND, JTAG_GETLASTRWSTATUS2], [])] }) := by
  rw [mem_transfer_write]
  have hsend := send_jtag_command_ok dev [JTAG_COMMAND, JTAG_GETLASTRWSTATUS2]
    [] 12 (addTrace s cmd data) resp2 hd2 hs2 (by omega)
  simp only [addTrace] at hsend
  simp [device_write, hd1, get_last_rw_status, hsend, addTrace,
    List.append_assoc]

/-- C3 (amended): for W ∈ {16, 32}, a driver memory read or write with
a non-empty, W/8-aligned-length buffer and an address that is not a
multiple of W/8 fails with `UnalignedAddress`, and the state at the
failure is exactly the state `select_ap` left behind — so the only USB
traffic preceding the failure is AP selection's own, and none at all
occurs when `select_ap` is a no-op (AP already open, or AP 0 on a
single-AP probe). -/
theorem claim_C3 :
    (∀ (dev : Device) (s s1 : StLinkState) (address byteLen apsel : Nat),
        select_ap dev apsel s = (.ok (), s1) → byteLen ≠ 0 →
        byteLen % 2 = 0 → address % 2 ≠ 0 →
        read_mem_16bit dev address byteLen apsel s =
          (.error (.Stlink .UnalignedAddress), s1))
    ∧ (∀ (dev : Device) (s s1 : StLinkState) (address apsel : Nat)
        (data : List Nat),
        select_ap dev apsel s = (.ok (), s1) → data ≠ [] →
        data.length % 2 = 0 → address % 2 ≠ 0 →
        write_mem_16bit dev address data apsel s =
          (.error (.Stlink .UnalignedAddress), s1))
    ∧ (∀ (dev : Device) (s s1 : StLinkState) (address byteLen apsel : Nat),
        select_ap dev apsel s = (.ok (), s1) → byteLen ≠ 0 →
        byteLen % 4 = 0 → byteLen ≤ STLINK_MAX_READ_LEN → address % 4 ≠ 0 →
        read_mem_32bit dev address byteLen apsel s =
          (.error (.Stlink .UnalignedAddress), s1))
    ∧ (∀ (dev : Device) (s s1 : StLinkState) (address apsel : Nat)
        (data : List Nat),
        select_ap dev apsel s = (.ok (), s1) → data ≠ [] →
        data.length % 4 = 0 → data.length ≤ STLINK_MAX_WRITE_LEN →
        address % 4 ≠ 0 →
        write_mem_32bit dev address data apsel s =
          (.error (.Stlink .UnalignedAddress), s1))
    ∧ (∀ (dev : Device) (s : StLinkState) (apsel : Nat),
        selectApNoop s apsel → select_ap dev apsel s = (.ok (), s)) := by
  refine ⟨?_, ?_, ?_, ?_, fun dev s apsel h => select_ap_noop dev apsel s h⟩
  · intro dev s s1 address byteLen apsel hsel hb _ hal
    rw [read_mem_16bit]
    simp [hb, hsel, hal]
  · intro dev s s1 address apsel data hsel hd _ hal
    rw [write_mem_16bit]
    simp [hd, hsel, hal]
  · intro dev s s1 address byteLen apsel hsel hb _ _ hal
    rw [read_mem_32bit]
    simp [hb, hsel, hal]
  · intro dev s s1 address apsel data hsel hd _ _ hal
    rw [write_mem_32bit]
    simp [hd, hsel, hal]

/-- Counterexample to C3 as stated: on a hw 3 probe whose AP 0 is not
yet open, a misaligned 16-bit read does fail with `UnalignedAddress`,
but only after a `JTAG_INIT_AP` command has already reached the
transport — the claim's "no USB traffic occurs before that failure"
is false. -/
theorem claim_C3_counterexample :
    read_mem_16bit okDev 1 2 0 ⟨3, 5, .Swd, 1800, 1120, false, [], []⟩ =
      (.error (.Stlink .UnalignedAddress),
        ⟨3, 5, .Swd, 1800, 1120, false, [0],
          [([JTAG_COMMAND, JTAG_INIT_AP, 0], [])]⟩)
    ∧ ([([JTAG_COMMAND, JTAG_INIT_AP, 0], [])] :
        List (List Nat × List Nat)) ≠ [] :=
  ⟨rfl, by decide⟩

/-- Witness for C3: on a probe with AP 0 already open, the misaligned
reads and writes of both widths fail with `UnalignedAddress` with no
state change at all (in particular, no USB traffic). -/
theorem claim_C3_witness :
    (read_mem_16bit okDev 1 2 0 ⟨2, 30, .Swd, 1800, 1120, false, [0], []⟩ =
      (.error (.Stlink .UnalignedAddress),
        ⟨2, 30, .Swd, 1800, 1120, false, [0], []⟩))
    ∧ (write_mem_16bit okDev 1 [0, 0] 0
        ⟨2, 30, .Swd, 1800, 1120, false, [0], []⟩ =
      (.error (.Stlink .UnalignedAddress),
        ⟨2, 30, .Swd, 1800, 1120, false, [0], []⟩))
    ∧ (read_mem_32bit okDev 2 4 0 ⟨2, 30, .Swd, 1800, 1120, false, [0], []⟩ =
      (.error (.Stlink .UnalignedAddress),
        ⟨2, 30, .Swd, 1800, 1120, false, [0], []⟩))
    ∧ (write_mem_32bit okDev 2 [0, 0, 0, 0] 0
        ⟨2, 30, .Swd, 1800, 1120, false, [0], []⟩ =
      (.error (.Stlink .UnalignedAddress),
        ⟨2, 30, .Swd, 1800, 1120, false, [0], []⟩)) :=
  ⟨claim_C3.1 okDev _ _ 1 2 0 rfl (by decide) (by decide) (by decide),
   claim_C3.2.1 okDev _ _ 1 0 [0, 0] rfl (by decide) (by decide)
     (by decide),
   claim_C3.2.2.1 okDev _ _ 2 4 0 rfl (by decide) (by decide)
     (by decide) (by decide),
   claim_C3.2.2.2.1 okDev _ _ 2 0 [0, 0, 0, 0] rfl (by decide)
     (by decide) (by decide) (by decide)⟩

/-! ## MemoryInterfaceView: chunked 32-bit reads (`read_32`) -/

/-- Decoding of `buff.chunks_exact(4)` into little-endian `u32` words
(mod.rs lines 1559-1561). -/
def bytes_to_u32_words : List Nat → List Nat
  | b0 :: b1 :: b2 :: b3 :: rest =>
    (b0 + 256 * b1 + 65536 * b2 + 16777216 * b3) :: bytes_to_u32_words rest
  | _ => []

/-- Mirrors `valid_32bit_arm_address`: a `u64` address must fit in 32
bits. -/
def valid_32bit_arm_address (address : Nat) : Except ArmError Nat :=
  if address ≤ 0xFFFFFFFF then .ok address
  else .error .AddressOutOf32BitAddressSpace

/-- The (index, element count) pairs `chunks(csize).enumerate()`
produces over `total` elements. -/
def chunk_sizes (total csize : Nat) : List (Nat × Nat) :=
  (List.range ((total + csize - 1) / csize)).map
    fun i => (i, min csize (total - i * csize))

/-- The `for (index, chunk) in data.chunks_mut(...)` loop of `read_32`
(mod.rs lines 1550-1562): one `read_mem_32bit` per chunk at
`address + index * STLINK_MAX_READ_LEN`; the chunk results are
concatenated here instead of being written into slices of `data`. -/
def read_32_loop (dev : Device) (apsel address : Nat) :
    List (Nat × Nat) → ArmM (List Nat)
  | [] => pure []
  | ic :: rest => do
    let buff ← liftProbe (read_mem_32bit dev
      (address + ic.1 * STLINK_MAX_READ_LEN) (4 * ic.2) apsel)
    let tail ← read_32_loop dev apsel address rest
    pure (bytes_to_u32_words buff ++ tail)

/-- Mirrors `read_32` (mod.rs lines 1540-1565) for a read of `n`
words. -/
def read_32 (dev : Device) (apsel : Nat) (address : Nat) (n : Nat) :
    ArmM (List Nat) := fun sa =>
  match valid_32bit_arm_address address with
  | .error e => (.error e, sa)
  | .ok address =>
    if n = 0 then (.ok [], sa)
    else read_32_loop dev apsel address
      (chunk_sizes n (STLINK_MAX_READ_LEN / 4)) sa

/-- The trace a chunk list produces: a memory-read command followed by
a RW-status query per chunk. -/
def trace_of_chunks (address apsel : Nat) :
    List (Nat × Nat) → List (List Nat × List Nat)
  | [] => []
  | ic :: rest =>
    (memory_command JTAG_READMEM_32BIT (address + ic.1 * STLINK_MAX_READ_LEN)
        (4 * ic.2) apsel, [])
      :: ([JTAG_COMMAND, JTAG_GETLASTRWSTATUS2], [])
      :: trace_of_chunks address apsel rest

/-- Recogniser of `JTAG_READMEM_32BIT` commands in the trace. -/
def is_readmem32 (p : List Nat × List Nat) : Bool :=
  match p.1 with
  | _ :: c :: _ => c == JTAG_READMEM_32BIT
  | _ => false

/-- A well-behaved device lets `read_mem_32bit` succeed with exactly
one memory command and one status query. -/
theorem read_mem_32bit_ok (dev : Device) (hdev : dev_all_jtag_ok dev)
    (address byteLen apsel : Nat) (s : StLinkState)
    (hnoop : selectApNoop s apsel) (hb : byteLen ≠ 0)
    (hal : address % 4 = 0) :
    ∃ data, read_mem_32bit dev address byteLen apsel s =
      (.ok data, { s with trace := s.trace ++
        [(memory_command JTAG_READMEM_32BIT address byteLen apsel, []),
         ([JTAG_COMMAND, JTAG_GETLASTRWSTATUS2], [])] }) := by
  obtain ⟨r1, hd1, _⟩ :=
    hdev (memory_command JTAG_READMEM_32BIT address byteLen apsel) []
  obtain ⟨r2, hd2, hs2⟩ := hdev [JTAG_COMMAND, JTAG_GETLASTRWSTATUS2] []
  have htrans := mem_transfer_read_ok dev
    (memory_command JTAG_READMEM_32BIT address byteLen apsel) byteLen s
    r1 r2 hd1 hd2 hs2
  have hretry := retry_on_wait_m_ok _ s _ _ htrans
  refine ⟨(r1 ++ List.replicate byteLen 0).take byteLen, ?_⟩
  rw [read_mem_32bit]
  simp [hb, select_ap_noop dev apsel s hnoop, hal, hretry]

/-- The chunk loop of `read_32` on a well-behaved device emits exactly
the chunk trace. -/
theorem read_32_loop_ok (dev : Device) (hdev : dev_all_jtag_ok dev)
    (apsel address : Nat) (hal : address % 4 = 0) :
    ∀ (chunks : List (Nat × Nat)) (sa : StlinkArmDebugState),
      selectApNoop sa.probe apsel → (∀ ic ∈ chunks, 0 < ic.2) →
      ∃ data, read_32_loop dev apsel address chunks sa =
        (.ok data, { sa with probe := { sa.probe with
          trace := sa.probe.trace ++ trace_of_chunks address apsel chunks } }) := by
  intro chunks
  induction chunks with
  | nil =>
    intro sa hnoop hpos
    refine ⟨[], ?_⟩
    simp [read_32_loop, trace_of_chunks]
  | cons ic rest ih =>
    intro sa hnoop hpos
    have hal2 : (address + ic.1 * STLINK_MAX_READ_LEN) % 4 = 0 := by
      rw [STLINK_MAX_READ_LEN]
      omega
    have hb2 : 4 * ic.2 ≠ 0 := by
      have := hpos ic (List.mem_cons_self ic rest)
      omega
    obtain ⟨data1, h1⟩ := read_mem_32bit_ok dev hdev
      (address + ic.1 * STLINK_MAX_READ_LEN) (4 * ic.2) apsel sa.probe
      hnoop hb2 hal2
    have hlift := liftProbe_ok _ sa _ _ h1
    obtain ⟨tail, h2⟩ := ih
      { sa with probe := { sa.probe with trace := sa.probe.trace ++
          [(memory_command JTAG_READMEM_32BIT
              (address + ic.1 * STLINK_MAX_READ_LEN) (4 * ic.2) apsel, []),
           ([JTAG_COMMAND, JTAG_GETLASTRWSTATUS2], [])] } }
      hnoop (fun x hx => hpos x (List.mem_cons_of_mem ic hx))
    refine ⟨bytes_to_u32_words data1 ++ tail, ?_⟩
    rw [read_32_loop]
    simp only [amBind_eval, hlift, h2, amPure_eval]
    simp [trace_of_chunks, List.append_assoc]

/-- The memory commands in a chunk trace, in order. -/
theorem trace_of_chunks_filter (address apsel : Nat) :
    ∀ chunks : List (Nat × Nat),
      (trace_of_chunks address apsel chunks).filter is_readmem32 =
        chunks.map fun ic =>
          (memory_command JTAG_READMEM_32BIT
            (address + ic.1 * STLINK_MAX_READ_LEN) (4 * ic.2) apsel, []) := by
  intro chunks
  induction chunks with
  | nil => simp [trace_of_chunks]
  | cons ic rest ih =>
    simp [trace_of_chunks, is_readmem32, memory_command, u32_le_bytes,
      JTAG_READMEM_32BIT, JTAG_GETLASTRWSTATUS2, JTAG_COMMAND, ih]

/-- A 32-bit view read of `n > 0` words on a well-behaved device
chunks by 1536 words, emits one `JTAG_READMEM_32BIT` command per chunk
at `address + i * 6144`, and the number of those commands is
`⌈4n / 6144⌉`. -/
theorem read_32_commands (dev : Device) (apsel address n : Nat)
    (sa : StlinkArmDebugState) (hdev : dev_all_jtag_ok dev)
    (hnoop : selectApNoop sa.probe apsel) (hal : address % 4 = 0)
    (hn : 0 < n) (haddr : address + 4 * n ≤ 0x100000000) :
    ∃ data, read_32 dev apsel address n sa =
      (.ok data, { sa with probe := { sa.probe with
        trace := sa.probe.trace ++
          trace_of_chunks address apsel (chunk_sizes n 1536) } })
    ∧ (trace_of_chunks address apsel (chunk_sizes n 1536)).filter is_readmem32
      = (List.range ((4 * n + 6143) / 6144)).map fun i =>
          (memory_command JTAG_READMEM_32BIT (address + i * 6144)
            (4 * min 1536 (n - i * 1536)) apsel, []) := by
  have hvalid : valid_32bit_arm_address address = .ok address := by
    rw [valid_32bit_arm_address, if_pos]
    omega
  have hpos : ∀ ic ∈ chunk_sizes n 1536, 0 < ic.2 := by
    intro ic hic
    rw [chunk_sizes] at hic
    simp only [List.mem_map, List.mem_range] at hic
    obtain ⟨i, hi, rfl⟩ := hic
    simp only
    rw [Nat.lt_min]
    constructor
    · omega
    · omega
  obtain ⟨data, hloop⟩ := read_32_loop_ok dev hdev apsel address hal
    (chunk_sizes n 1536) sa hnoop hpos
  have hne : n ≠ 0 := by omega
  refine ⟨data, ?_, ?_⟩
  · rw [show read_32 dev apsel address n sa =
      read_32_loop dev apsel address
        (chunk_sizes n (STLINK_MAX_READ_LEN / 4)) sa by
        rw [read_32, hvalid]
        simp [hne]]
    rw [show STLINK_MAX_READ_LEN / 4 = 1536 from rfl]
    exact hloop
  · rw [trace_of_chunks_filter]
    rw [chunk_sizes, List.map_map]
    have hceil : (4 * n + 6143) / 6144 = (n + 1535) / 1536 := by omega
    rw [hceil]
    rfl

/-- C4: a 32-bit view read of `n` words with `4n > 6144` is split into
`⌈4n / 6144⌉` chunks, producing that many `JTAG_READMEM_32BIT` commands
where chunk `i` reads from `address + i * 6144`; in particular a
12288-byte read (3072 words) emits exactly two such commands at
offsets 0x0 and 0x1800. -/
theorem claim_C4 :
    (∀ (dev : Device) (apsel address n : Nat) (sa : StlinkArmDebugState),
        dev_all_jtag_ok dev → selectApNoop sa.probe apsel →
        address % 4 = 0 → 0 < n → address + 4 * n ≤ 0x100000000 →
        ∃ data, read_32 dev apsel address n sa =
          (.ok data, { sa with probe := { sa.probe with
            trace := sa.probe.trace ++
              trace_of_chunks address apsel (chunk_sizes n 1536) } })
        ∧ (trace_of_chunks address apsel (chunk_sizes n 1536)).filter
            is_readmem32
          = (List.range ((4 * n + 6143) / 6144)).map fun i =>
              (memory_command JTAG_READMEM_32BIT (address + i * 6144)
                (4 * min 1536 (n - i * 1536)) apsel, []))
    ∧ (∃ data, read_32 okDev 0 0 3072
          ⟨⟨3, 5, .Swd, 1800, 1120, false, [0], []⟩, true, [0]⟩ =
        (.ok data, ⟨⟨3, 5, .Swd, 1800, 1120, false, [0],
          ([] : List (List Nat × List Nat)) ++
            trace_of_chunks 0 0 (chunk_sizes 3072 1536)⟩, true, [0]⟩)
      ∧ (trace_of_chunks 0 0 (chunk_sizes 3072 1536)).filter is_readmem32 =
          [(memory_command JTAG_READMEM_32BIT 0x0 6144 0, []),
           (memory_command JTAG_READMEM_32BIT 0x1800 6144 0, [])]) := by
  refine ⟨fun dev apsel address n sa hdev hnoop hal hn haddr =>
    read_32_commands dev apsel address n sa hdev hnoop hal hn haddr, ?_⟩
  obtain ⟨data, h1, h2⟩ := read_32_commands okDev 0 0 3072
    ⟨⟨3, 5, .Swd, 1800, 1120, false, [0], []⟩, true, [0]⟩
    okDev_all_jtag_ok (by decide) (by decide) (by decide) (by decide)
  refine ⟨data, h1, ?_⟩
  rw [h2]
  decide

/-- Witness for C4: a one-word read on a concrete adapter state. -/
theorem claim_C4_witness :
    ∃ data, read_32 okDev 0 0x20000000 1
        ⟨⟨3, 5, .Swd, 1800, 1120, false, [0], []⟩, true, [0]⟩ =
      (.ok data, ⟨⟨3, 5, .Swd, 1800, 1120, false, [0],
        ([] : List (List Nat × List Nat)) ++
          trace_of_chunks 0x20000000 0 (chunk_sizes 1 1536)⟩, true, [0]⟩)
    ∧ (trace_of_chunks 0x20000000 0 (chunk_sizes 1 1536)).filter is_readmem32
      = (List.range ((4 * 1 + 6143) / 6144)).map fun i =>
          (memory_command JTAG_READMEM_32BIT (0x20000000 + i * 6144)
            (4 * min 1536 (1 - i * 1536)) 0, []) :=
  claim_C4.1 okDev 0 0x20000000 1
    ⟨⟨3, 5, .Swd, 1800, 1120, false, [0], []⟩, true, [0]⟩
    okDev_all_jtag_ok (by decide) (by decide) (by decide) (by decide)

/-! ## MemoryInterfaceView: chunked 16-bit writes (`write_16`) -/

/-- The little-endian byte serialisation of the `u16` tx buffer
(mod.rs lines 1700-1708). -/
def le16_flatten : List Nat → List Nat
  | [] => []
  | w :: ws => w % 256 :: (w / 256 % 256) :: le16_flatten ws

/-- The (index, chunk) pairs `chunks(csize).enumerate()` produces over
a byte list. -/
def list_chunks_enum (csize : Nat) (l : List Nat) : List (Nat × List Nat) :=
  (List.range ((l.length + csize - 1) / csize)).map
    fun i => (i, (l.drop (i * csize)).take csize)

/-- The `for (index, chunk) in tx_buffer.chunks(chunk_size)` loop of
`write_16` (mod.rs lines 1717-1723).  The source advances the address
by `STLINK_MAX_WRITE_LEN` per chunk index while the data advances by
`chunk_size` (line 1719). -/
def write_16_loop (dev : Device) (apsel address : Nat) :
    List (Nat × List Nat) → ArmM Unit
  | [] => pure ()
  | ic :: rest => do
    liftProbe (write_mem_16bit dev (address + ic.1 * STLINK_MAX_WRITE_LEN)
      ic.2 apsel)
    write_16_loop dev apsel address rest

/-- Mirrors `write_16` (mod.rs lines 1691-1726) for a write of `u16`
words: serialise, chunk by 32 bytes (hw < 3) or 256 bytes (hw ≥ 3),
and hand each chunk to `write_mem_16bit`. -/
def write_16 (dev : Device) (apsel : Nat) (address : Nat)
    (data : List Nat) : ArmM Unit := fun sa =>
  match valid_32bit_arm_address address with
  | .error e => (.error e, sa)
  | .ok address =>
    if data = [] then (.ok (), sa)
    else
      write_16_loop dev apsel address
        (list_chunks_enum (if sa.probe.hw_version < 3 then 32 else 256)
          (le16_flatten data)) sa

/-- C5 (bug evidence): on a hw 2 probe (chunk size 32 bytes), a
17-word (34-byte) `write_16` at `0x2000_0000` issues its second
`JTAG_WRITEMEM_16BIT` command at `0x2000_0000 + 0xFFFC`
(`STLINK_MAX_WRITE_LEN`) instead of `0x2000_0000 + 32`: the written
addresses do not tile the range contiguously. -/
theorem claim_C5 :
    (write_16 okDev 0 0x20000000 (List.replicate 17 0)
        ⟨⟨2, 30, .Swd, 1800, 1120, false, [0], []⟩, true, [0]⟩ =
      (.ok (), ⟨⟨2, 30, .Swd, 1800, 1120, false, [0],
        [(memory_command JTAG_WRITEMEM_16BIT 0x20000000 32 0,
            List.replicate 32 0),
         ([JTAG_COMMAND, JTAG_GETLASTRWSTATUS2], []),
         (memory_command JTAG_WRITEMEM_16BIT 0x2000FFFC 2 0, [0, 0]),
         ([JTAG_COMMAND, JTAG_GETLASTRWSTATUS2], [])]⟩, true, [0]⟩))
    ∧ (0x2000FFFC : Nat) ≠ 0x20000000 + 1 * 32 := by
  refine ⟨?_, by decide⟩
  rfl

/-! ## The DAP-server poll loop (`session_data.rs`) -/

/-- Mirrors the part of `CoreStatus` the poll loop distinguishes. -/
inductive CoreStatus
  | Running
  | Halted (reason : Nat)
  | Sleeping
  | LockedUp
  | Unknown
  deriving DecidableEq, Repr

/-- Mirrors the part of `DebuggerError` the poll loop produces. -/
inductive DebuggerError
  | UnableToOpenProbe
  | Other (code : Nat)
  deriving DecidableEq, Repr

/-- Mirrors the part of `CoreConfig` the poll loop reads. -/
structure CoreConfig where
  core_index : Nat
  rtt_enabled : Bool
  deriving DecidableEq, Repr

/-- Mirrors the `for core_config in session_config.core_configs` loop
of `poll_cores` (session_data.rs lines 323-417).  `attach` tells
whether `attach_core(core_index)` succeeds (on failure the loop
`continue`s without pushing a status, lines 324-330).  The body after a
successful attach — `poll_core`, the RTT pump, the semihosting dispatch
and the stack-frame rebuild, all delegated to types defined outside the
given sources — is abstracted by the `body` oracle returning the status
pushed for that core (line 416) and whether it cleared the
suggest-delay flag, or the error that aborts the whole call (the `?`
operators at lines 338, 376, 380, 409). -/
def poll_cores_loop (attach : Nat → Bool)
    (body : Nat → Except DebuggerError (CoreStatus × Bool)) :
    List CoreConfig → Bool → Except DebuggerError (List CoreStatus × Bool)
  | [], delay => .ok ([], delay)
  | cfg :: rest, delay =>
    if attach cfg.core_index = false then
      poll_cores_loop attach body rest delay
    else
      match body cfg.core_index with
      | .error e => .error e
      | .ok (st, cleared) =>
        match poll_cores_loop attach body rest
            (if cleared then false else delay) with
        | .error e => .error e
        | .ok (sts, delay1) => .ok (st :: sts, delay1)

/-- Mirrors `poll_cores` (session_data.rs lines 308-419): the
suggest-delay flag starts `true` (line 314). -/
def poll_cores (attach : Nat → Bool)
    (body : Nat → Except DebuggerError (CoreStatus × Bool))
    (configs : List CoreConfig) : Except DebuggerError (List CoreStatus × Bool) :=
  poll_cores_loop attach body configs true

/-- On a successful tick, the returned statuses are exactly those of
the cores whose attach succeeded, in configuration order. -/
theorem poll_cores_loop_spec (attach : Nat → Bool)
    (body : Nat → Except DebuggerError (CoreStatus × Bool)) :
    ∀ (configs : List CoreConfig) (delay : Bool) (sts : List CoreStatus)
      (dl : Bool),
      poll_cores_loop attach body configs delay = .ok (sts, dl) →
      sts = configs.filterMap (fun cfg =>
        if attach cfg.core_index then
          match body cfg.core_index with
          | .ok stc => some stc.1
          | .error _ => none
        else none)
      ∧ sts.length = (configs.filter fun cfg => attach cfg.core_index).length := by
  intro configs
  induction configs with
  | nil =>
    intro delay sts dl h
    rw [poll_cores_loop] at h
    injection h with h1
    injection h1 with h2 h3
    subst h2
    simp
  | cons cfg rest ih =>
    intro delay sts dl h
    rw [poll_cores_loop] at h
    split at h
    case isTrue hattach =>
      obtain ⟨h1, h2⟩ := ih delay sts dl h
      constructor
      · rw [h1]
        simp [hattach]
      · rw [h2]
        simp [hattach]
    case isFalse hattach =>
      have hattach2 : attach cfg.core_index = true := by
        revert hattach
        cases attach cfg.core_index <;> simp
      split at h
      · exact Except.noConfusion h
      · rename_i st cleared hbody
        split at h
        · exact Except.noConfusion h
        · rename_i sts1 dl1 hrest
          injection h with h1
          injection h1 with h2 h3
          subst h2
          obtain ⟨h4, h5⟩ := ih (if cleared then false else delay) sts1 dl1 hrest
          constructor
          · rw [h4]
            simp [hattach2, hbody]
          · rw [List.length_cons, h5]
            simp [hattach2]

/-- C9 (amended): on a successful tick, `poll_cores` returns one
`CoreStatus` entry per configured core whose attach succeeded, in
configuration order — attach-failed cores are skipped and contribute no
entry — together with the suggest-delay boolean. -/
theorem claim_C9 :
    (∀ (attach : Nat → Bool)
        (body : Nat → Except DebuggerError (CoreStatus × Bool))
        (configs : List CoreConfig) (sts : List CoreStatus) (dl : Bool),
        poll_cores attach body configs = .ok (sts, dl) →
        sts = configs.filterMap fun cfg =>
          if attach cfg.core_index then
            match body cfg.core_index with
            | .ok stc => some stc.1
            | .error _ => none
          else none)
    ∧ (∀ (attach : Nat → Bool)
        (body : Nat → Except DebuggerError (CoreStatus × Bool))
        (configs : List CoreConfig) (sts : List CoreStatus) (dl : Bool),
        poll_cores attach body configs = .ok (sts, dl) →
        sts.length =
          (configs.filter fun cfg => attach cfg.core_index).length) :=
  ⟨fun attach body configs sts dl h =>
    (poll_cores_loop_spec attach body configs true sts dl h).1,
   fun attach body configs sts dl h =>
    (poll_cores_loop_spec attach body configs true sts dl h).2⟩

/-- Counterexample to C9 as stated: a single configured core whose
attach fails this tick yields an empty status vector, not one entry per
configured core. -/
theorem claim_C9_counterexample :
    poll_cores (fun _ => false) (fun _ => .ok (.Running, false))
        [⟨0, false⟩] = .ok ([], true)
    ∧ ([] : List CoreStatus).length ≠ ([⟨0, false⟩] : List CoreConfig).length :=
  ⟨rfl, by decide⟩

/-- Witness for C9: two cores, both attaching, both polled as
running. -/
theorem claim_C9_witness :
    ([CoreStatus.Running, CoreStatus.Running] : List CoreStatus) =
      ([⟨0, false⟩, ⟨1, true⟩] : List CoreConfig).filterMap (fun cfg =>
        if (fun _ => true : Nat → Bool) cfg.core_index then
          match (fun _ => (.ok (CoreStatus.Running, false) :
              Except DebuggerError (CoreStatus × Bool))) cfg.core_index with
          | .ok stc => some stc.1
          | .error _ => none
        else none)
    ∧ ([CoreStatus.Running, CoreStatus.Running] : List CoreStatus).length =
      (([⟨0, false⟩, ⟨1, true⟩] : List CoreConfig).filter fun cfg =>
        (fun _ => true : Nat → Bool) cfg.core_index).length :=
  ⟨claim_C9.1 (fun _ => true) (fun _ => .ok (.Running, false))
      [⟨0, false⟩, ⟨1, true⟩] [.Running, .Running] true rfl,
   claim_C9.2 (fun _ => true) (fun _ => .ok (.Running, false))
      [⟨0, false⟩, ⟨1, true⟩] [.Running, .Running] true rfl⟩
